import Mathlib

/-!
# tf2_bot_detector: the self-update orchestrator

A shallow embedding of `tf2_bot_detector/UpdateManager.cpp`, and of the password generator
of `tf2_bot_detector/SetupFlow/TF2CommandLinePage.cpp`.

* `std::variant` becomes an inductive type with one constructor per alternative.
* `std::future<T>` becomes `Future D T`: no shared state, a task that is still running
  (carrying the description `D` of what was handed to the background thread), or a finished
  task holding a value or the exception that `get()` rethrows.
* Member functions that mutate `*this` return the new object.
* What the code reads from outside itself (`Settings`, the `Platform` namespace, `VERSION`,
  the clock) is passed in explicitly.
* The version type `V` is a parameter with a total order, as `Version.h` is not part of the
  translated sources.
* The lambdas handed to `std::async` are functions of what the transport client, the file
  system, libzippp and the process launcher answer, on an explicit file system.
-/

namespace tf2_bot_detector

/-! ## Data model -/

/-- Modelled from the spec: `Platform::OS` is an enumeration declared in `Platform/Platform.h`;
a value is represented by its underlying integer. -/
structure OS where
  id : Nat
deriving DecidableEq, Repr

/-- Modelled from the spec: `Platform::Arch` is an enumeration declared in `Platform/Platform.h`;
a value is represented by its underlying integer. -/
structure Arch where
  id : Nat
deriving DecidableEq, Repr

/-- Modelled from the spec: `ReleaseChannel` is declared in `ReleaseChannel.h`. The source names
the values `None` (update checks disabled) and `Public`; every other channel is identified by
the name `mh::enum_fmt` prints for it. -/
inductive ReleaseChannel where
  | None
  | Public
  | other (name : String)
deriving DecidableEq, Repr

/-- The text `mh::enum_fmt` produces for a channel under the `:v` format. -/
def ReleaseChannel.name : ReleaseChannel → String
  | .None => "None"
  | .Public => "Public"
  | .other n => n

/-- Modelled from the spec: `UpdateStatus` is declared in `UpdateManager.h`; these are the
enumerators that `UpdateManager.cpp` names. -/
inductive UpdateStatus where
  | Unknown
  | UpdateCheckDisabled
  | InternetAccessDisabled
  | CheckQueued
  | Checking
  | CheckFailed
  | UpToDate
  | UpdateAvailable
  | UpdateToolRequired
  | UpdateToolDownloading
  | UpdateToolDownloadFailed
  | UpdateToolDownloadSuccess
  | Downloading
  | DownloadFailed
  | DownloadSuccess
  | Updating
  | UpdateFailed
  | UpdateSuccess
deriving DecidableEq, Repr

/-- A `std::filesystem::path`, as its sequence of components, root first. -/
abbrev Path := List String

/-- The path `operator/` with a single-component right operand. -/
def Path.append (p : Path) (component : String) : Path := p ++ [component]

/-- A `std::shared_ptr<const HTTPClient>`: the identity of the client object. -/
structure HTTPClient where
  id : Nat
deriving DecidableEq, Repr

/-- The type `BuildInfo::BuildVariant`. -/
structure BuildVariant where
  m_OS : OS
  m_Arch : Arch
  m_DownloadURL : String
deriving DecidableEq, Repr

/-- The type `BuildInfo`, with the fields `from_json` fills in. -/
structure BuildInfo (V : Type) where
  m_Version : V
  m_ReleaseChannel : ReleaseChannel
  m_GitHubURL : String
  m_MSIXBundleURL : String
  m_Updater : List BuildVariant
  m_Portable : List BuildVariant

/-- A `std::exception` caught when a future is resolved: `typeid(e).name()` and `e.what()`. -/
structure Exn where
  typeName : String
  what : String
deriving DecidableEq, Repr

/-- A `std::future<T>`. `invalid` has no shared state (default-constructed, or after `get()`),
`pending d` is a task that has not finished, `ready r` is a finished task. -/
inductive Future (D T : Type) where
  | invalid
  | pending (task : D)
  | ready (result : Except Exn T)

/-- The member `std::future::valid()`. -/
def Future.valid {D T : Type} : Future D T → Bool
  | .invalid => false
  | _ => true

/-- The helper `mh::is_future_ready`: the future has a shared state and that state is ready. -/
def is_future_ready {D T : Type} : Future D T → Bool
  | .ready _ => true
  | _ => false

/-- Modelled from the spec: `InstallUpdate::Result` is declared in `Platform/Platform.h`; the
tagged variant `Success | StartedNoFeedback | NeedsUpdateTool{args}`. -/
inductive InstallResult where
  | Success
  | StartedNoFeedback
  | NeedsUpdateTool (m_UpdateToolArgs : String)
deriving DecidableEq, Repr

/-- The struct `DownloadedUpdateTool`. -/
structure DownloadedUpdateTool where
  m_Path : Path
  m_Arguments : String
deriving DecidableEq, Repr

/-- The struct `DownloadedBuild`. -/
structure DownloadedBuild where
  m_UpdaterVariant : BuildVariant
  m_ExtractedLocation : Path
deriving DecidableEq, Repr

/-- The struct `UpdateToolResult`. -/
structure UpdateToolResult where
  m_Success : Bool
deriving DecidableEq, Repr

/-! ### What each background task was started with -/

/-- Captures of the lambda in `Update()` that fetches and decodes the manifest. -/
structure CheckTask where
  sharedClient : HTTPClient
  releaseChannel : ReleaseChannel
deriving DecidableEq, Repr

/-- Captures of the lambda in `DownloadBuild`. -/
structure DownloadBuildTask where
  clientPtr : HTTPClient
  tool : BuildVariant
  updater : BuildVariant
  downloadDir : Path
deriving DecidableEq, Repr

/-- Captures of the lambda in `DownloadUpdateTool`. -/
structure DownloadUpdateToolTask where
  clientPtr : HTTPClient
  updater : BuildVariant
  args : String
deriving DecidableEq, Repr

/-- Captures of the lambda in `RunUpdateTool`. -/
structure RunUpdateToolTask where
  path : Path
  args : String
deriving DecidableEq, Repr

/-- Arguments of a `Platform::BeginInstallUpdate` call. -/
structure InstallTask (V : Type) where
  buildInfo : BuildInfo V
  client : HTTPClient

/-- One call of `std::async` made by the update manager. -/
inductive AsyncTask where
  | check (t : CheckTask)
  | downloadBuild (t : DownloadBuildTask)
  | downloadUpdateTool (t : DownloadUpdateToolTask)
  | runUpdateTool (t : RunUpdateToolTask)
deriving DecidableEq, Repr

/-- Whether an `std::async` call is the manifest fetch. -/
def AsyncTask.isCheck : AsyncTask → Bool
  | .check _ => true
  | _ => false

/-! ### The surroundings -/

/-- The object `m_Settings`, as far as the update manager reads it: `GetHTTPClient()` (null when
no transport client is available) and `m_ReleaseChannel`. -/
structure Settings where
  GetHTTPClient : Option HTTPClient
  m_ReleaseChannel : Option ReleaseChannel
deriving DecidableEq, Repr

/-- The `Platform` namespace, the constant `VERSION`, and the text formatters the code uses.
All of them are declared outside the translated sources and are taken as given. -/
structure Platform (V : Type) where
  VERSION : V
  GetOS : OS
  GetArch : Arch
  IsInstalled : Bool
  CanInstallUpdate : BuildInfo V → Bool
  BeginInstallUpdate : BuildInfo V → HTTPClient → Future (InstallTask V) InstallResult
  GetCurrentExeDir : Path
  GetCurrentProcessID : Nat
  temp_directory_path : Path
  fmtVersion : V → String
  fmtPath : Path → String

/-! ## Variant selection -/

/-- The function `FindNativeVariant`: the loop over `variants`, returning the pointee. -/
def FindNativeVariant {V : Type} (P : Platform V) : List BuildVariant → Option BuildVariant
  | [] => none
  | variant :: rest =>
    if variant.m_OS ≠ P.GetOS then FindNativeVariant P rest
    else if variant.m_Arch ≠ P.GetArch then FindNativeVariant P rest
    else some variant

/-- The selection as the specification words it: an entry whose OS and architecture both equal
the running platform's. -/
def isNative {V : Type} (P : Platform V) (v : BuildVariant) : Bool :=
  decide (v.m_OS = P.GetOS) && decide (v.m_Arch = P.GetArch)

/-- The specification's `selectNative`: find-first with the predicate `isNative`. -/
def selectNative {V : Type} (P : Platform V) (variants : List BuildVariant) : Option BuildVariant :=
  variants.find? (isNative P)

/-! ## The update manager -/

/-- The struct `UpdateManager::AvailableUpdate`: the `BuildInfo` of `IAvailableUpdate`, the two
resolved native variants (null when absent) and the client. `m_Parent` is passed explicitly to
the member functions that use it. -/
structure AvailableUpdate (V : Type) where
  m_BuildInfo : BuildInfo V
  m_Updater : Option BuildVariant
  m_Portable : Option BuildVariant
  m_HTTPClient : HTTPClient

/-- The constructor `AvailableUpdate::AvailableUpdate`. -/
def AvailableUpdate.new {V : Type} (P : Platform V) (client : HTTPClient) (buildInfo : BuildInfo V) :
    AvailableUpdate V :=
  { m_BuildInfo := buildInfo
    m_Updater := FindNativeVariant P buildInfo.m_Updater
    m_Portable := FindNativeVariant P buildInfo.m_Portable
    m_HTTPClient := client }

/-- The type `State_t`: the pipeline union. -/
inductive State_t (V : Type) where
  | monostate
  | futureDownloadedBuild (f : Future DownloadBuildTask DownloadedBuild)
  | downloadedBuild (v : DownloadedBuild)
  | futureInstallResult (f : Future (InstallTask V) InstallResult)
  | installResult (v : InstallResult)
  | futureDownloadedUpdateTool (f : Future DownloadUpdateToolTask DownloadedUpdateTool)
  | downloadedUpdateTool (v : DownloadedUpdateTool)
  | futureUpdateToolResult (f : Future RunUpdateToolTask UpdateToolResult)
  | updateToolResult (v : UpdateToolResult)

/-- The type `UpdateCheckState_t`: the check union. Its first alternative is the future, so a
default-constructed union and `emplace<0>()` both give `future .invalid`. -/
inductive UpdateCheckState_t (V : Type) where
  | future (f : Future CheckTask (BuildInfo V))
  | availableUpdate (u : AvailableUpdate V)

/-- The struct `UpdateManager::StateManager`. `m_UpdateStatus` is the published pair of status
and message. -/
structure StateManager (V : Type) where
  m_UpdateCheckVariant : UpdateCheckState_t V
  m_Variant : State_t V
  m_UpdateStatus : UpdateStatus × String

namespace StateManager

variable {V : Type}

/-- The member `SetUpdateStatus`: publish status and message. -/
def SetUpdateStatus (sm : StateManager V) (status : UpdateStatus) (msg : String) : StateManager V :=
  { sm with m_UpdateStatus := (status, msg) }

/-- The members `Emplace<T>` and `Set`, which publish the status and then store the new
alternative in the pipeline union. -/
def Set (sm : StateManager V) (status : UpdateStatus) (msg : String) (value : State_t V) :
    StateManager V :=
  { sm.SetUpdateStatus status msg with m_Variant := value }

/-- The member `Clear`: `Emplace<std::monostate>`. -/
def Clear (sm : StateManager V) (status : UpdateStatus) (msg : String) : StateManager V :=
  sm.Set status msg .monostate

/-- The member `ClearUpdateCheck`: publish, then `m_UpdateCheckVariant.emplace<0>()`. -/
def ClearUpdateCheck (sm : StateManager V) (status : UpdateStatus) (msg : String) : StateManager V :=
  { sm.SetUpdateStatus status msg with m_UpdateCheckVariant := .future .invalid }

/-- The member `SetUpdateCheck`. -/
def SetUpdateCheck (sm : StateManager V) (status : UpdateStatus) (msg : String)
    (value : UpdateCheckState_t V) : StateManager V :=
  { sm.SetUpdateStatus status msg with m_UpdateCheckVariant := value }

end StateManager

/-- The result types `TFutureResult` that `StateManager::Update` is instantiated with. -/
inductive ResultType where
  | downloadedBuild
  | installResult
  | downloadedUpdateTool
  | updateToolResult
deriving DecidableEq, Repr

/-- The C++ type an instantiation stands for. -/
def ResultType.Value : ResultType → Type
  | .downloadedBuild => DownloadedBuild
  | .installResult => InstallResult
  | .downloadedUpdateTool => DownloadedUpdateTool
  | .updateToolResult => UpdateToolResult

/-- What the task behind a `std::future<TFutureResult>` was started with. -/
def ResultType.Task (V : Type) : ResultType → Type
  | .downloadedBuild => DownloadBuildTask
  | .installResult => InstallTask V
  | .downloadedUpdateTool => DownloadUpdateToolTask
  | .updateToolResult => RunUpdateToolTask

/-- The member `Future::get()` on a future that is ready: the value, or the exception it
rethrows. On any other future the call does not return; `none`. -/
def Future.get? {D T : Type} : Future D T → Option (Except Exn T)
  | .ready r => some r
  | _ => none

/-- The call `std::get_if<std::future<TFutureResult>>(&variant)` on the pipeline union. -/
def get_if_future {V : Type} : (T : ResultType) → State_t V → Option (Future (T.Task V) T.Value)
  | .downloadedBuild, .futureDownloadedBuild f => some f
  | .installResult, .futureInstallResult f => some f
  | .downloadedUpdateTool, .futureDownloadedUpdateTool f => some f
  | .updateToolResult, .futureUpdateToolResult f => some f
  | _, _ => none

/-- The call `variant.emplace<TFutureResult>(value)` on the pipeline union. -/
def emplace {V : Type} : (T : ResultType) → T.Value → State_t V
  | .downloadedBuild, v => .downloadedBuild v
  | .installResult, v => .installResult v
  | .downloadedUpdateTool, v => .downloadedUpdateTool v
  | .updateToolResult, v => .updateToolResult v

/-- The alternative `std::future<TFutureResult>` of the pipeline union. -/
def emplaceFuture {V : Type} : (T : ResultType) → Future (T.Task V) T.Value → State_t V
  | .downloadedBuild, f => .futureDownloadedBuild f
  | .installResult, f => .futureInstallResult f
  | .downloadedUpdateTool, f => .futureDownloadedUpdateTool f
  | .updateToolResult, f => .futureUpdateToolResult f

/-- The text `mh::format` builds for a failed resolution: the message, the exception's type
name and the exception's message. -/
def failureText (failureMsg : String) (e : Exn) : String :=
  failureMsg ++ ":\n\t- " ++ e.typeName ++ "\n\t- " ++ e.what

namespace StateManager

variable {V : Type}

/-- The member template `UpdateVariant<TFutureResult>` applied to `m_Variant`; the Boolean is
its return value. -/
def UpdateVariant (T : ResultType) (sm : StateManager V)
    (success : UpdateStatus) (successMsg : String)
    (failure : UpdateStatus) (failureMsg : String) : Bool × StateManager V :=
  match get_if_future T sm.m_Variant with
  | some future =>
    if is_future_ready future then
      match future.get? with
      | some (.ok value) =>
        (true, { sm.SetUpdateStatus success successMsg with m_Variant := emplace T value })
      | some (.error e) =>
        (true, sm.Clear failure (failureText failureMsg e))
      | none => (true, sm)
    else (true, sm)
  | none => (false, sm)

/-- The member template `Update<TFutureResult>`. -/
def Update (T : ResultType) (sm : StateManager V)
    (success : UpdateStatus) (successMsg : String)
    (failure : UpdateStatus) (failureMsg : String) : Bool × StateManager V :=
  sm.UpdateVariant T success successMsg failure failureMsg

end StateManager

/-- The class `UpdateManager`. `asyncLog` is not a member: it records, latest first, the tasks
this object has handed to `std::async`. -/
structure UpdateManager (V : Type) where
  m_State : StateManager V
  m_IsUpdateQueued : Bool
  m_IsInstalled : Bool
  asyncLog : List AsyncTask

/-- Record the `std::async` call behind a freshly created future. -/
def logAsync {D T : Type} (log : List AsyncTask) (tag : D → AsyncTask) : Future D T → List AsyncTask
  | .pending d => tag d :: log
  | _ => log

/-- The constant `DOWNLOAD_DIR_ROOT`. -/
def DOWNLOAD_DIR_ROOT {V : Type} (P : Platform V) : Path :=
  (P.temp_directory_path.append "TF2 Bot Detector").append "Portable Updates"

/-- The function `DownloadBuild`; `now` is the reading of the high-resolution clock. -/
def DownloadBuild {V : Type} (P : Platform V) (now : Nat) (client : HTTPClient)
    (tool updater : BuildVariant) : Future DownloadBuildTask DownloadedBuild :=
  let downloadDir := (DOWNLOAD_DIR_ROOT P).append ("tool_" ++ toString now)
  .pending { clientPtr := client, tool := tool, updater := updater, downloadDir := downloadDir }

/-- The function `DownloadUpdateTool`. -/
def DownloadUpdateTool (client : HTTPClient) (updater : BuildVariant) (args : String) :
    Future DownloadUpdateToolTask DownloadedUpdateTool :=
  .pending { clientPtr := client, updater := updater, args := args }

/-- The function `RunUpdateTool`. -/
def RunUpdateTool {V : Type} (P : Platform V) (path : Path) (args : String) :
    Future RunUpdateToolTask UpdateToolResult :=
  let args := args ++ (" --wait-pid " ++ toString P.GetCurrentProcessID)
  .pending { path := path, args := args }

namespace UpdateManager

variable {V : Type}

/-- The constructor `UpdateManager::UpdateManager`, with the members' default initialisers; the
status source starts out as `Unknown` with an empty message. -/
def new (P : Platform V) : UpdateManager V :=
  { m_State :=
      { m_UpdateCheckVariant := .future .invalid
        m_Variant := .monostate
        m_UpdateStatus := (.Unknown, "") }
    m_IsUpdateQueued := true
    m_IsInstalled := P.IsInstalled
    asyncLog := [] }

/-- The member `QueueUpdateCheck`. -/
def QueueUpdateCheck (m : UpdateManager V) : UpdateManager V :=
  { m with m_IsUpdateQueued := true }

/-- The member `GetUpdateStatus`. -/
def GetUpdateStatus (m : UpdateManager V) : UpdateStatus × String :=
  m.m_State.m_UpdateStatus

/-- The member `GetAvailableUpdate`: `std::get_if<AvailableUpdate>` on the check union. -/
def GetAvailableUpdate (m : UpdateManager V) : Option (AvailableUpdate V) :=
  match m.m_State.m_UpdateCheckVariant with
  | .availableUpdate u => some u
  | .future _ => none

/-- The member `CanReplaceUpdateCheckState`. -/
def CanReplaceUpdateCheckState (m : UpdateManager V) : Bool :=
  match m.m_State.m_UpdateCheckVariant with
  | .availableUpdate _ => true
  | .future future =>
    if !future.valid then true
    else if is_future_ready future then true
    else false

/-- Lines 281-306 of `Update()`: launch a queued version check. -/
def launchUpdateCheck (S : Settings) (m : UpdateManager V) : UpdateManager V :=
  if m.m_IsUpdateQueued && m.CanReplaceUpdateCheckState then
    let client := S.GetHTTPClient
    let releaseChannel := S.m_ReleaseChannel.getD ReleaseChannel.None
    match client with
    | some sharedClient =>
      if releaseChannel ≠ ReleaseChannel.None then
        let task : CheckTask := { sharedClient := sharedClient, releaseChannel := releaseChannel }
        let future : Future CheckTask (BuildInfo V) := .pending task
        { m with
          m_State := (m.m_State.SetUpdateCheck .Checking "Checking for updates..." (.future future))
          asyncLog := logAsync m.asyncLog AsyncTask.check future
          m_IsUpdateQueued := false }
      else m
    | none => m
  else m

/-- Lines 308-346 of `Update()`: resolve the version check. -/
def resolveUpdateCheck [LinearOrder V] (P : Platform V) (S : Settings) (m : UpdateManager V) :
    UpdateManager V :=
  match m.m_State.m_UpdateCheckVariant with
  | .future future =>
    match S.GetHTTPClient with
    | some client =>
      if is_future_ready future then
        match future.get? with
        | some (.ok buildInfo) =>
          let update := AvailableUpdate.new P client buildInfo
          if update.m_BuildInfo.m_Version ≤ P.VERSION then
            { m with m_State := (m.m_State.SetUpdateCheck .UpToDate
                ("Up to date (v" ++ P.fmtVersion P.VERSION ++ " " ++
                  (S.m_ReleaseChannel.getD ReleaseChannel.Public).name ++ ")")
                (.availableUpdate update)) }
          else
            { m with m_State := (m.m_State.SetUpdateCheck .UpdateAvailable
                ("Update available (v" ++ P.fmtVersion update.m_BuildInfo.m_Version ++ " " ++
                  (S.m_ReleaseChannel.getD ReleaseChannel.Public).name ++ ")")
                (.availableUpdate update)) }
        | some (.error e) =>
          { m with m_State := (m.m_State.ClearUpdateCheck .CheckFailed
              ("Update check failed:\n\t- " ++ e.typeName ++ "\n\t- " ++ e.what)) }
        | none => m
      else m
    | none =>
      { m with m_State := (m.m_State.ClearUpdateCheck .CheckFailed
          "Update check failed: HTTPClient unavailable") }
  | .availableUpdate _ => m

/-- Lines 348-411 of `Update()`: act on a completed pipeline stage. -/
def advancePipeline (P : Platform V) (S : Settings) (m : UpdateManager V) : UpdateManager V :=
  match m.m_State.m_Variant with
  | .downloadedBuild downloadedBuild =>
    match S.GetHTTPClient with
    | none =>
      { m with m_State := (m.m_State.Clear .UpdateFailed
          "Unable to begin downloading update tool: HTTPClient unavailable") }
    | some client =>
      let task := DownloadUpdateTool client downloadedBuild.m_UpdaterVariant
        ("--update-type Portable --source-path " ++ P.fmtPath downloadedBuild.m_ExtractedLocation ++
          " --dest-path " ++ P.fmtPath P.GetCurrentExeDir)
      { m with
        m_State := (m.m_State.Set .UpdateToolDownloading
          "New version downloaded. Downloading update tool..." (.futureDownloadedUpdateTool task))
        asyncLog := logAsync m.asyncLog AsyncTask.downloadUpdateTool task }
  | .installResult installUpdateResult =>
    match installUpdateResult with
    | .NeedsUpdateTool m_UpdateToolArgs =>
      match m.GetAvailableUpdate with
      | none =>
        { m with m_State := (m.m_State.Clear .UpdateFailed
            "Unable to begin downloading update tool: availableUpdate was nullptr") }
      | some availableUpdate =>
        match availableUpdate.m_Updater with
        | none =>
          { m with m_State := (m.m_State.Clear .UpdateFailed
              "Unable to begin downloading update tool: availableUpdate->m_Updater was nullptr") }
        | some updater =>
          match S.GetHTTPClient with
          | none =>
            { m with m_State := (m.m_State.Clear .UpdateFailed
                "Unable to begin downloading update tool: HTTPClient unavailable") }
          | some client =>
            let task := DownloadUpdateTool client updater m_UpdateToolArgs
            { m with
              m_State := (m.m_State.Set .UpdateToolDownloading
                "Platform app updater unavailable. Downloading update tool..."
                (.futureDownloadedUpdateTool task))
              asyncLog := logAsync m.asyncLog AsyncTask.downloadUpdateTool task }
    | _ => m
  | .downloadedUpdateTool downloadedUpdateTool =>
    let task := RunUpdateTool P downloadedUpdateTool.m_Path downloadedUpdateTool.m_Arguments
    { m with
      m_State := (m.m_State.Set .Updating "Running update tool..." (.futureUpdateToolResult task))
      asyncLog := logAsync m.asyncLog AsyncTask.runUpdateTool task }
  | _ => m

/-- Lines 413-427 of `Update()`: the four `m_State.Update<T>` calls, in order. -/
def pollPipeline (sm : StateManager V) : StateManager V :=
  let sm := (sm.Update .downloadedBuild
    .DownloadSuccess "Finished downloading new version."
    .DownloadFailed "Failed to download new version.").2
  let sm := (sm.Update .installResult
    .UpdateSuccess "Finished running platform update."
    .UpdateFailed "Failed to run platform update.").2
  let sm := (sm.Update .downloadedUpdateTool
    .UpdateToolDownloadSuccess "Finished downloading update tool."
    .UpdateToolDownloadFailed "Failed to download update tool.").2
  let sm := (sm.Update .updateToolResult
    .UpdateSuccess "Update complete."
    .UpdateFailed "Update failed.").2
  sm

/-- The member `UpdateManager::Update`: one tick. -/
def Update [LinearOrder V] (P : Platform V) (S : Settings) (m : UpdateManager V) : UpdateManager V :=
  let m := launchUpdateCheck S m
  let m := resolveUpdateCheck P S m
  let m := advancePipeline P S m
  { m with m_State := pollPipeline m.m_State }

/-- The background thread finishes the task behind the check future with `result`. -/
def checkTaskFinishes (result : Except Exn (BuildInfo V)) (m : UpdateManager V) : UpdateManager V :=
  match m.m_State.m_UpdateCheckVariant with
  | .future (.pending _) =>
    { m with m_State := { m.m_State with m_UpdateCheckVariant := .future (.ready result) } }
  | _ => m

/-- The background thread finishes the task behind the pipeline's `std::future<T>` with
`result`. -/
def pipelineTaskFinishes (T : ResultType) (result : Except Exn T.Value) (m : UpdateManager V) :
    UpdateManager V :=
  match get_if_future T m.m_State.m_Variant with
  | some (.pending _) =>
    { m with m_State := { m.m_State with m_Variant := emplaceFuture T (.ready result) } }
  | _ => m

/-- Successive ticks, each under the settings in force when it runs. -/
def ticks [LinearOrder V] (P : Platform V) : List Settings → UpdateManager V → UpdateManager V
  | [], m => m
  | S :: later, m => ticks P later (Update P S m)

end UpdateManager

namespace AvailableUpdate

variable {V : Type}

/-- The member `AvailableUpdate::CanSelfUpdate`. -/
def CanSelfUpdate (P : Platform V) (u : AvailableUpdate V) : Bool :=
  if P.IsInstalled then
    P.CanInstallUpdate u.m_BuildInfo
  else
    if u.m_Updater.isNone then false
    else if u.m_Portable.isNone then false
    else true

/-- The member `AvailableUpdate::BeginSelfUpdate`; `parent` is `m_Parent`, `S` its settings and
`now` the clock reading `DownloadBuild` takes. The Boolean is the return value. The last case
stands for dereferencing a null `m_Portable` or `m_Updater`, which `CanSelfUpdate` has
excluded before that line is reached. -/
def BeginSelfUpdate (P : Platform V) (S : Settings) (now : Nat) (u : AvailableUpdate V)
    (parent : UpdateManager V) : Bool × UpdateManager V :=
  if !u.CanSelfUpdate P then (false, parent)
  else
    match S.GetHTTPClient with
    | none => (false, parent)
    | some client =>
      if P.IsInstalled then
        if P.CanInstallUpdate u.m_BuildInfo then
          (true, { parent with m_State := (parent.m_State.Set .Updating
            ("Platform reports that TF2 Bot Detector is already installed, and it can be updated. " ++
              "Running platform updater...")
            (.futureInstallResult (P.BeginInstallUpdate u.m_BuildInfo client))) })
        else
          (false, { parent with m_State := (parent.m_State.Clear .UpdateFailed
            "Platform reports that TF2 Bot Detector is installed, but it is unable to install updates.") })
      else
        match u.m_Portable, u.m_Updater with
        | some portable, some updater =>
          let task := DownloadBuild P now client portable updater
          (true, { parent with
            m_State := (parent.m_State.Set .Downloading
              ("Platform reports that TF2 Bot Detector is not installed. " ++
                "Updating in-place (portable mode)")
              (.futureDownloadedBuild task))
            asyncLog := logAsync parent.asyncLog AsyncTask.downloadBuild task })
        | _, _ => (false, parent)

end AvailableUpdate

/-! ## What the background tasks do -/

/-- How the lambda handed to `std::async` ends: it returns a value, it throws (the exception
ends up in the future), it ends the whole process through `std::exit`, or the process is
ended by `std::terminate`. -/
inductive TaskEnd (T : Type) where
  | returned (value : T)
  | threw (e : Exn)
  | exited (code : Nat)
  | terminated

/-- The lambda in `RunUpdateTool`. `Launch` stands for `Platform::Processes::Launch`: `none`
when the call returns, `some e` when it throws. The result lists the calls of `Launch` made
and says how the task ends. -/
def RunUpdateToolTask.run (Launch : Path → String → Option Exn) (t : RunUpdateToolTask) :
    List (Path × String) × TaskEnd UpdateToolResult :=
  match Launch t.path t.args with
  | some e => ([(t.path, t.args)], .threw e)
  | none => ([(t.path, t.args)], .exited 1)

/-- The task behind a future returned by `RunUpdateTool`, run to its end. A future that is
not a running task stands for no lambda. -/
def runUpdateToolFuture (Launch : Path → String → Option Exn) :
    Future RunUpdateToolTask UpdateToolResult → Option (List (Path × String) × TaskEnd UpdateToolResult)
  | .pending t => some (t.run Launch)
  | _ => none

/-! ## The RCON password (`SetupFlow/TF2CommandLinePage.cpp`) -/

/-- The array `PALETTE` of `GenerateRandomRCONPassword`: the 62 characters of the string
literal followed by its terminating NUL, which `std::size` counts. -/
def PALETTE : List Char :=
  "0123456789abcdefghijklmnopqrstuvwxyzABCDEFGHIJKLMNOPQRSTUVWXYZ".toList ++ [Char.ofNat 0]

/-- A seeded `std::mt19937`, as the sequence of values it goes on to feed the distribution,
one for each call `dist(generator)`. -/
abbrev Generator := Nat → Nat

/-- A call `dist(generator)` of a `std::uniform_int_distribution<size_t> dist(a, b)`: a value
of the closed range from `a` to `b`, every one of which some generator state yields, and the
generator after the call. -/
def uniform_int_distribution (a b : Nat) (generator : Generator) : Nat × Generator :=
  (a + generator 0 % (b - a + 1), fun i => generator (i + 1))

/-- The loop of `GenerateRandomRCONPassword`, from index `length - remaining` on. -/
def fillFromPalette (a b : Nat) : Nat → Generator → List Char
  | 0, _ => []
  | remaining + 1, generator =>
    let (index, generator) := uniform_int_distribution a b generator
    PALETTE.getD index (Char.ofNat 0) :: fillFromPalette a b remaining generator

/-- The function `GenerateRandomRCONPassword`, given the generator as seeded; the
distribution is `dist(0, std::size(PALETTE) - 1)`. -/
def GenerateRandomRCONPassword (length : Nat) (generator : Generator) : List Char :=
  fillFromPalette 0 (PALETTE.length - 1) length generator

/-! ## Files and archives -/

/-- The member `path::remove_filename`, as used to name the directory a file lies in. -/
def Path.remove_filename (p : Path) : Path := p.dropLast

/-- The member `path::stem` on a single file name: the name without its extension. The names
`.` and `..` and names whose only dot comes first have no extension. -/
def filenameStem (filename : String) : String :=
  if filename = "." ∨ filename = ".." then filename
  else
    match filename.toList.reverse.span (fun c => c != '.') with
    | (_, []) => filename
    | (_, _ :: stemReversed) =>
      if stemReversed.isEmpty then filename else String.mk stemReversed.reverse

/-- The member `path::replace_extension`: the extension of the last component is removed and
the replacement, with a dot put before it if it has none, is appended. -/
def Path.replace_extension (p : Path) (replacement : String) : Path :=
  let suffix :=
    if replacement = "" then ""
    else if replacement.toList.head? = some '.' then replacement
    else "." ++ replacement
  match p.getLast? with
  | none => [suffix]
  | some filename => p.dropLast ++ [filenameStem filename ++ suffix]

/-- The member `path::lexically_normal` on components: `.` is dropped and `..` cancels the
component before it. -/
def Path.lexically_normal (p : Path) : Path :=
  p.foldl (fun acc component =>
    if component = "." then acc
    else if component = ".." then acc.dropLast
    else acc ++ [component]) []

/-- Whether `dir` is a proper ancestor of `p`: `p` lies inside the directory `dir`. -/
def Path.isInside (p dir : Path) : Bool :=
  dir.isPrefixOf p && decide (dir.length < p.length)

/-- The regular files of the file system: the content stored under a path, if there is a file.
A file is looked up under the lexically normal form of its path. -/
abbrev FileSystem := Path → Option String

/-- Whether a regular file exists at `p`. -/
def FileSystem.isFile (fs : FileSystem) (p : Path) : Bool := (fs p.lexically_normal).isSome

/-- The content of the file at `p`. -/
def FileSystem.read (fs : FileSystem) (p : Path) : Option String := fs p.lexically_normal

/-- The file at `p` is created or overwritten with `content`. -/
def FileSystem.write (fs : FileSystem) (p : Path) (content : String) : FileSystem :=
  fun q => if q = p.lexically_normal then some content else fs q

/-- What a call `std::filesystem::remove(p)` that goes through leaves: no file at `p`. -/
def FileSystem.remove (fs : FileSystem) (p : Path) : FileSystem :=
  fun q => if q = p.lexically_normal then none else fs q

/-- An entry of a `libzippp::ZipArchive`: `getName()` as path components, whether that name
is an absolute path, `isFile()`, and the bytes `readContent` streams out. -/
structure ZipEntry where
  getName : Path
  nameIsAbsolute : Bool
  isFile : Bool
  content : String

/-- The path `operator/`: an absolute right operand replaces the left one, a relative one is
appended to it. -/
def Path.join (p q : Path) (qIsAbsolute : Bool) : Path :=
  if qIsAbsolute then q else p ++ q

/-- What the calls into the transport client, the standard library and libzippp answer.
`GetString` is the download. For the file operations `none` means the call went through and
`some e` that it threw `e`. `openArchive` gives the entries of an archive file that opens, and
`none` for a file `ZipArchive::open` refuses. `readContent` gives the error code when it is not
`LIBZIPPP_OK`. `remove` is `std::filesystem::remove`, which throws on every error but a
missing file. `scopeExitNoexcept` says whether the destructor of `mh::scope_exit`, declared
outside the translated sources, is `noexcept`, as destructors are unless declared otherwise.
`sourceLocation` is the text of `MH_SOURCE_LOCATION_CURRENT()` at a line. -/
structure Outside where
  GetString : HTTPClient → String → Except Exn String
  create_directories : Path → Option Exn
  openFile : Path → Option Exn
  writeFile : Path → Option Exn
  openArchive : String → Option (List ZipEntry)
  readContent : Path → ZipEntry → Option Int
  remove : Path → Option Exn
  scopeExitNoexcept : Bool
  sourceLocation : Nat → String

/-- An exception on its way out of a task: a plain one, or one thrown by
`std::throw_with_nested`, which carries the exception that was being handled. -/
inductive Failure where
  | plain (e : Exn)
  | nested (outer : Exn) (cause : Failure)

/-- What a handler for `std::exception` sees of a failure: the outermost exception. -/
def Failure.toExn : Failure → Exn
  | .plain e => e
  | .nested outer _ => outer

/-- The call `std::throw_with_nested(std::runtime_error(what))` while `cause` is handled. -/
def throw_with_nested (what : String) (cause : Failure) : Failure :=
  .nested { typeName := "std::runtime_error", what := what } cause

/-- The function `SaveFile`: the result and the file system it leaves. -/
def SaveFile (O : Outside) (path : Path) (data : String) (fs : FileSystem) :
    Except Failure Unit × FileSystem :=
  match O.create_directories path.remove_filename with
  | some e => (.error (.plain e), fs)
  | none =>
    match O.openFile path with
    | some e => (.error (.plain e), fs)
    | none =>
      let fs := fs.write path ""
      match O.writeFile path with
      | some e => (.error (.plain e), fs)
      | none => (.ok (), fs.write path data)

/-- The loop over `archive.getEntries()` in `ExtractArchive`. -/
def extractEntries (O : Outside) (directory : Path) :
    List ZipEntry → FileSystem → Except Failure Unit × FileSystem
  | [], fs => (.ok (), fs)
  | entry :: entries, fs =>
    let path := directory.join entry.getName entry.nameIsAbsolute
    if !entry.isFile then extractEntries O directory entries fs
    else
      match O.create_directories path.remove_filename with
      | some e => (.error (.plain e), fs)
      | none =>
        match O.openFile path with
        | some e => (.error (.plain e), fs)
        | none =>
          let fs := fs.write path ""
          match O.readContent path entry with
          | some result =>
            (.error (.plain
              { typeName := "std::runtime_error"
                what := O.sourceLocation 588 ++ ": entry.readContent() returned " ++
                  toString result }), fs)
          | none => extractEntries O directory entries (fs.write path entry.content)

/-- The function `ExtractArchive`, on the entries of the archive. -/
def ExtractArchive {V : Type} (P : Platform V) (O : Outside) (entries : List ZipEntry)
    (directory : Path) (fs : FileSystem) : Except Failure Unit × FileSystem :=
  match O.create_directories directory with
  | some e =>
    (.error (throw_with_nested
      (O.sourceLocation 568 ++ ": Failed to create directory(s) for " ++ P.fmtPath directory)
      (.plain e)), fs)
  | none =>
    match extractEntries O directory entries fs with
    | (.error cause, fs) =>
      (.error (throw_with_nested
        (O.sourceLocation 595 ++ ": Failed to extract archive entries") cause), fs)
    | (.ok u, fs) => (.ok u, fs)

/-- The path `tempZipPath` of `DownloadAndExtractZip`. -/
def tempZipPath (extractDir : Path) : Path := extractDir.replace_extension ".zip"

/-- The part of `DownloadAndExtractZip` that runs while `scopeExit` is alive: saving the
downloaded bytes, opening the archive and extracting it. An archive that does not open has no
entries. -/
def saveAndExtract {V : Type} (P : Platform V) (O : Outside) (data : String) (extractDir : Path)
    (fs : FileSystem) : Except Failure Unit × FileSystem :=
  match SaveFile O (tempZipPath extractDir) data fs with
  | (.error e, fs) => (.error e, fs)
  | (.ok _, fs) =>
    let entries :=
      match fs.read (tempZipPath extractDir) with
      | some bytes => (O.openArchive bytes).getD []
      | none => []
    ExtractArchive P O entries extractDir fs

/-- How a call ends: it returns, it throws, or the process is ended by `std::terminate`. -/
inductive CallEnd where
  | returned
  | threw (failure : Failure)
  | terminated

/-- The function `DownloadAndExtractZip`. A failed download throws before `scopeExit` exists.
After that, however the rest ends, the destructor of `scopeExit` calls
`std::filesystem::remove(tempZipPath)`. When that call goes through, the function returns or
throws as the rest did. When it throws, the files stay as they were and the exception leaves
the destructor: while the stack is unwound for a failure of the rest, and whenever the
destructor is `noexcept`, the process is ended by `std::terminate`; otherwise the exception of
the removal is what the function throws. -/
def DownloadAndExtractZip {V : Type} (P : Platform V) (O : Outside) (client : HTTPClient)
    (url : String) (extractDir : Path) (fs : FileSystem) : CallEnd × FileSystem :=
  match O.GetString client url with
  | .error e => (.threw (.plain e), fs)
  | .ok data =>
    let (result, fs) := saveAndExtract P O data extractDir fs
    match O.remove (tempZipPath extractDir) with
    | some e =>
      match result with
      | .error _ => (.terminated, fs)
      | .ok _ => if O.scopeExitNoexcept then (.terminated, fs) else (.threw (.plain e), fs)
    | none =>
      match result with
      | .ok _ => (.returned, fs.remove (tempZipPath extractDir))
      | .error failure => (.threw failure, fs.remove (tempZipPath extractDir))

/-- The lambda in `DownloadBuild`, run on a file system. -/
def DownloadBuildTask.run {V : Type} (P : Platform V) (O : Outside) (t : DownloadBuildTask)
    (fs : FileSystem) : TaskEnd DownloadedBuild × FileSystem :=
  match DownloadAndExtractZip P O t.clientPtr t.tool.m_DownloadURL t.downloadDir fs with
  | (.threw e, fs) => (.threw e.toExn, fs)
  | (.terminated, fs) => (.terminated, fs)
  | (.returned, fs) =>
    (.returned { m_UpdaterVariant := t.updater, m_ExtractedLocation := t.downloadDir }, fs)

/-- The directory the lambda in `DownloadUpdateTool` downloads to, at clock reading `now`. -/
def updateToolDownloadDir {V : Type} (P : Platform V) (now : Nat) : Path :=
  (DOWNLOAD_DIR_ROOT P).append ("updater_" ++ toString now)

/-- The lambda in `DownloadUpdateTool`, run on a file system at clock reading `now`. -/
def DownloadUpdateToolTask.run {V : Type} (P : Platform V) (O : Outside) (now : Nat)
    (t : DownloadUpdateToolTask) (fs : FileSystem) : TaskEnd DownloadedUpdateTool × FileSystem :=
  let downloadDir := updateToolDownloadDir P now
  match DownloadAndExtractZip P O t.clientPtr t.updater.m_DownloadURL downloadDir fs with
  | (.threw e, fs) => (.threw e.toExn, fs)
  | (.terminated, fs) => (.terminated, fs)
  | (.returned, fs) =>
    (.returned
      { m_Path := downloadDir.append "tf2_bot_detector_updater.exe", m_Arguments := t.args }, fs)

/-! ## Decoding the manifest -/

/-- A `nlohmann::json` value. An object is the list of its members; a key is looked up at its
first occurrence. -/
inductive Json where
  | null
  | boolean (b : Bool)
  | number (n : Int)
  | string (s : String)
  | array (elements : List Json)
  | object (members : List (String × Json))

/-- The exception `nlohmann::json::out_of_range` that `at` throws for a missing key. -/
def out_of_range (key : String) : Exn :=
  { typeName := "nlohmann::detail::out_of_range", what := "key " ++ key ++ " not found" }

/-- The exception `nlohmann::json::type_error`. -/
def type_error (what : String) : Exn :=
  { typeName := "nlohmann::detail::type_error", what := what }

/-- The member `json::find(key)`: the member of an object under `key`; nothing is found in a
value that is not an object. -/
def Json.find (j : Json) (key : String) : Option Json :=
  match j with
  | .object members => members.lookup key
  | _ => none

/-- The member `json::at(key)`: throws `type_error` on a value that is not an object and
`out_of_range` when the object has no such key. -/
def Json.atKey (j : Json) (key : String) : Except Exn Json :=
  match j with
  | .object members =>
    match members.lookup key with
    | some value => .ok value
    | none => .error (out_of_range key)
  | _ => .error (type_error "cannot use at() with this type")

/-- The conversion of a `json` value to `std::string`. -/
def Json.toStdString : Json → Except Exn String
  | .string s => .ok s
  | _ => .error (type_error "type must be string")

/-- The conversions declared outside the translated sources: `from_json` for `Version` and
`ReleaseChannel`, and what `mh::find_enum_value` leaves in a `Platform::OS` and a
`Platform::Arch`. Each may throw. -/
structure Conversions (V : Type) where
  version : Json → Except Exn V
  releaseChannel : Json → Except Exn ReleaseChannel
  os : Json → Except Exn OS
  arch : Json → Except Exn Arch

/-- The function `from_json(const json&, BuildInfo::BuildVariant&)`. -/
def BuildVariant.from_json {V : Type} (C : Conversions V) (j : Json) : Except Exn BuildVariant :=
  match j.atKey "os" with
  | .error e => .error e
  | .ok os =>
    match C.os os with
    | .error e => .error e
    | .ok m_OS =>
      match j.atKey "arch" with
      | .error e => .error e
      | .ok arch =>
        match C.arch arch with
        | .error e => .error e
        | .ok m_Arch =>
          match j.atKey "download_url" with
          | .error e => .error e
          | .ok url =>
            match url.toStdString with
            | .error e => .error e
            | .ok m_DownloadURL =>
              .ok { m_OS := m_OS, m_Arch := m_Arch, m_DownloadURL := m_DownloadURL }

/-- The element-wise conversion of a JSON array to `std::vector<BuildVariant>`. -/
def variantsFromJson {V : Type} (C : Conversions V) : List Json → Except Exn (List BuildVariant)
  | [] => .ok []
  | element :: elements =>
    match BuildVariant.from_json C element with
    | .error e => .error e
    | .ok variant =>
      match variantsFromJson C elements with
      | .error e => .error e
      | .ok variants => .ok (variant :: variants)

/-- The call `get_to` into a `std::vector<BuildVariant>`: the value must be an array. -/
def Json.toVariants {V : Type} (C : Conversions V) : Json → Except Exn (List BuildVariant)
  | .array elements => variantsFromJson C elements
  | _ => .error (type_error "type must be array")

/-- Modelled from the spec: `try_get_to_defaulted` is declared in `Util/JSONUtils.h`, which is
not among the translated sources. The specification says that missing optional fields default
to the empty string; a field that is present is converted like any other string. -/
def try_get_to_defaulted (j : Json) (name : String) : Except Exn String :=
  match j.find name with
  | none => .ok ""
  | some value => value.toStdString

/-- The function `from_json(const json&, BuildInfo&)`. -/
def BuildInfo.from_json {V : Type} (C : Conversions V) (j : Json) : Except Exn (BuildInfo V) :=
  match j.atKey "version" with
  | .error e => .error e
  | .ok version =>
    match C.version version with
    | .error e => .error e
    | .ok m_Version =>
      match j.atKey "build_type" with
      | .error e => .error e
      | .ok build_type =>
        match C.releaseChannel build_type with
        | .error e => .error e
        | .ok m_ReleaseChannel =>
          match try_get_to_defaulted j "github_url" with
          | .error e => .error e
          | .ok m_GitHubURL =>
            match try_get_to_defaulted j "msix_bundle_url" with
            | .error e => .error e
            | .ok m_MSIXBundleURL =>
              match j.atKey "updater" with
              | .error e => .error e
              | .ok updater =>
                match updater.toVariants C with
                | .error e => .error e
                | .ok m_Updater =>
                  match j.atKey "portable" with
                  | .error e => .error e
                  | .ok portable =>
                    match portable.toVariants C with
                    | .error e => .error e
                    | .ok m_Portable =>
                      .ok
                        { m_Version := m_Version
                          m_ReleaseChannel := m_ReleaseChannel
                          m_GitHubURL := m_GitHubURL
                          m_MSIXBundleURL := m_MSIXBundleURL
                          m_Updater := m_Updater
                          m_Portable := m_Portable }

/-! ## Runs of the update manager -/

/-- What can happen in a run: the owning thread calls `Update()`; the task behind the pipeline
future ends without an error, `now` being the clock reading its lambda takes; the version check
task ends with a decoded manifest. -/
inductive Event (V : Type) where
  | tick
  | pipelineTaskSucceeds (now : Nat)
  | checkTaskSucceeds (buildInfo : BuildInfo V)

/-- The pipeline task ends without an error: the download of the build returns the
`DownloadedBuild` of its lambda, the download of the update tool the `DownloadedUpdateTool` of
its lambda, and the update tool task, once the tool is launched, ends the process, for which
the result is `none`. The task of the platform installer is not part of this model, and with
no running task nothing happens. -/
def UpdateManager.pipelineTaskSucceeds {V : Type} (P : Platform V) (now : Nat)
    (m : UpdateManager V) : Option (UpdateManager V) :=
  match m.m_State.m_Variant with
  | .futureDownloadedBuild (.pending t) =>
    some (m.pipelineTaskFinishes .downloadedBuild
      (.ok { m_UpdaterVariant := t.updater, m_ExtractedLocation := t.downloadDir }))
  | .futureDownloadedUpdateTool (.pending t) =>
    some (m.pipelineTaskFinishes .downloadedUpdateTool
      (.ok { m_Path := (updateToolDownloadDir P now).append "tf2_bot_detector_updater.exe"
             m_Arguments := t.args }))
  | .futureUpdateToolResult (.pending _) => none
  | _ => some m

/-- A run so far: the manager, the distinct statuses an observer has read, one reading after
every tick, and whether the process has ended. -/
structure Run (V : Type) where
  manager : UpdateManager V
  published : List UpdateStatus
  exited : Bool

/-- An observer reads the status: it is recorded when it differs from the last one read. -/
def observe (status : UpdateStatus) (published : List UpdateStatus) : List UpdateStatus :=
  if published.getLast? = some status then published else published ++ [status]

/-- One event of a run under the settings `S`; nothing happens once the process has ended. -/
def Run.step {V : Type} [LinearOrder V] (P : Platform V) (S : Settings) (r : Run V) :
    Event V → Run V
  | .tick =>
    if r.exited then r
    else
      { manager := UpdateManager.Update P S r.manager
        published := observe (UpdateManager.Update P S r.manager).m_State.m_UpdateStatus.1 r.published
        exited := false }
  | .pipelineTaskSucceeds now =>
    if r.exited then r
    else
      match r.manager.pipelineTaskSucceeds P now with
      | some m => { r with manager := m }
      | none => { r with exited := true }
  | .checkTaskSucceeds buildInfo =>
    if r.exited then r
    else { r with manager := r.manager.checkTaskFinishes (.ok buildInfo) }

/-- The argument string `Update()` builds for the update tool of a portable update. -/
def portableUpdateArgs {V : Type} (P : Platform V) (extractedLocation : Path) : String :=
  "--update-type Portable --source-path " ++ P.fmtPath extractedLocation ++
    " --dest-path " ++ P.fmtPath P.GetCurrentExeDir

/-! ### The stages of a portable self-update

These describe, for the proofs about runs, the states a manager passes through. -/

/-- The stages of a portable self-update: the build is downloading, its task is done, its
result is stored, and the same for the update tool, whose lambda read the clock at `now`; then
the update tool task is running. -/
inductive Stage where
  | downloading
  | downloaded
  | buildStored
  | toolDownloading
  | toolDownloaded (now : Nat)
  | toolStored (now : Nat)
  | running (now : Nat)

/-- What stays the same through a portable self-update: the check state, the cached
installation flag, the tasks started before it, the client, the two variants and the
extraction directory of the build. -/
structure PortableUpdate (V : Type) where
  check : AvailableUpdate V
  installed : Bool
  before : List AsyncTask
  client : HTTPClient
  portable : BuildVariant
  updater : BuildVariant
  downloadDir : Path

namespace PortableUpdate

variable {V : Type}

/-- The task of `DownloadBuild`. -/
def buildTask (c : PortableUpdate V) : DownloadBuildTask :=
  { clientPtr := c.client, tool := c.portable, updater := c.updater, downloadDir := c.downloadDir }

/-- The task of `DownloadUpdateTool`. -/
def toolTask (P : Platform V) (c : PortableUpdate V) : DownloadUpdateToolTask :=
  { clientPtr := c.client, updater := c.updater, args := portableUpdateArgs P c.downloadDir }

/-- The downloaded update tool. -/
def tool (P : Platform V) (c : PortableUpdate V) (now : Nat) : DownloadedUpdateTool :=
  { m_Path := (updateToolDownloadDir P now).append "tf2_bot_detector_updater.exe"
    m_Arguments := portableUpdateArgs P c.downloadDir }

/-- The task of `RunUpdateTool`. -/
def runTask (P : Platform V) (c : PortableUpdate V) (now : Nat) : RunUpdateToolTask :=
  { path := (updateToolDownloadDir P now).append "tf2_bot_detector_updater.exe"
    args := portableUpdateArgs P c.downloadDir ++
      (" --wait-pid " ++ toString P.GetCurrentProcessID) }

/-- The pipeline union at a stage. -/
def variant (P : Platform V) (c : PortableUpdate V) : Stage → State_t V
  | .downloading => .futureDownloadedBuild (.pending c.buildTask)
  | .downloaded =>
    .futureDownloadedBuild (.ready (.ok
      { m_UpdaterVariant := c.updater, m_ExtractedLocation := c.downloadDir }))
  | .buildStored =>
    .downloadedBuild { m_UpdaterVariant := c.updater, m_ExtractedLocation := c.downloadDir }
  | .toolDownloading => .futureDownloadedUpdateTool (.pending (c.toolTask P))
  | .toolDownloaded now => .futureDownloadedUpdateTool (.ready (.ok (c.tool P now)))
  | .toolStored now => .downloadedUpdateTool (c.tool P now)
  | .running now => .futureUpdateToolResult (.pending (c.runTask P now))

/-- The published status at a stage. -/
def status : Stage → UpdateStatus × String
  | .downloading | .downloaded =>
    (.Downloading,
      "Platform reports that TF2 Bot Detector is not installed. " ++
        "Updating in-place (portable mode)")
  | .buildStored => (.DownloadSuccess, "Finished downloading new version.")
  | .toolDownloading | .toolDownloaded _ =>
    (.UpdateToolDownloading, "New version downloaded. Downloading update tool...")
  | .toolStored _ => (.UpdateToolDownloadSuccess, "Finished downloading update tool.")
  | .running _ => (.Updating, "Running update tool...")

/-- The tasks started since the self-update began, latest first. -/
def started (P : Platform V) (c : PortableUpdate V) : Stage → List AsyncTask
  | .downloading | .downloaded | .buildStored => [.downloadBuild c.buildTask]
  | .toolDownloading | .toolDownloaded _ | .toolStored _ =>
    [.downloadUpdateTool (c.toolTask P), .downloadBuild c.buildTask]
  | .running now =>
    [.runUpdateTool (c.runTask P now), .downloadUpdateTool (c.toolTask P),
      .downloadBuild c.buildTask]

/-- The manager at a stage. -/
def manager (P : Platform V) (c : PortableUpdate V) (stage : Stage) : UpdateManager V :=
  { m_State :=
      { m_UpdateCheckVariant := .availableUpdate c.check
        m_Variant := c.variant P stage
        m_UpdateStatus := status stage }
    m_IsUpdateQueued := false
    m_IsInstalled := c.installed
    asyncLog := c.started P stage ++ c.before }

end PortableUpdate

/-- How many version check tasks the manager has handed to `std::async`. -/
def UpdateManager.checksStarted {V : Type} (m : UpdateManager V) : Nat :=
  (m.asyncLog.filter AsyncTask.isCheck).length

/-- Whether the check union holds a future whose task has not ended. -/
def UpdateManager.checkRunning {V : Type} (m : UpdateManager V) : Bool :=
  match m.m_State.m_UpdateCheckVariant with
  | .future (.pending _) => true
  | _ => false

/-- Everything that acts on a manager: the owning thread calls `Update()` under the settings
of the moment, `QueueUpdateCheck()` or `GetAvailableUpdate()->BeginSelfUpdate()`, and the
background threads end the version check task or the pipeline task. -/
inductive Action (V : Type) where
  | tick (S : Settings)
  | queueUpdateCheck
  | beginSelfUpdate (S : Settings) (now : Nat)
  | checkTaskEnds (result : Except Exn (BuildInfo V))
  | pipelineTaskEnds (T : ResultType) (result : Except Exn T.Value)

/-- A manager together with the number of version check tasks that have run to their end. -/
structure World (V : Type) where
  manager : UpdateManager V
  checksEnded : Nat

namespace World

variable {V : Type}

/-- The version check tasks started and not yet ended. -/
def inFlight (w : World V) : Nat := w.manager.checksStarted - w.checksEnded

/-- A newly constructed manager; no task has been started. -/
def initial (P : Platform V) : World V :=
  { manager := UpdateManager.new P, checksEnded := 0 }

/-- One action. A task ends when its thread is done, which makes its future ready, or within
a tick that destroys the future while the task is running: the destructor of a future from
`std::async` waits for the task, so the task has ended when `ClearUpdateCheck` returns. -/
def step [LinearOrder V] (P : Platform V) (w : World V) : Action V → World V
  | .tick S =>
    let launched := UpdateManager.launchUpdateCheck S w.manager
    let resolved := UpdateManager.resolveUpdateCheck P S launched
    { manager := UpdateManager.Update P S w.manager
      checksEnded :=
        if launched.checkRunning && !resolved.checkRunning then w.checksEnded + 1
        else w.checksEnded }
  | .queueUpdateCheck => { w with manager := w.manager.QueueUpdateCheck }
  | .beginSelfUpdate S now =>
    match w.manager.GetAvailableUpdate with
    | some u => { w with manager := (u.BeginSelfUpdate P S now w.manager).2 }
    | none => w
  | .checkTaskEnds result =>
    if w.manager.checkRunning then
      { manager := w.manager.checkTaskFinishes result, checksEnded := w.checksEnded + 1 }
    else w
  | .pipelineTaskEnds T result => { w with manager := w.manager.pipelineTaskFinishes T result }

/-- The actions in order. -/
def run [LinearOrder V] (P : Platform V) (w : World V) (actions : List (Action V)) : World V :=
  actions.foldl (step P) w

end World

/-! ## Concrete inputs

Versions are natural numbers here. The running program is a portable (not installed) copy of
version 5 on OS 0, architecture 1. -/

namespace Example

/-- A portable installation of version 5. -/
def platform : Platform Nat :=
  { VERSION := 5
    GetOS := { id := 0 }
    GetArch := { id := 1 }
    IsInstalled := false
    CanInstallUpdate := fun _ => false
    BeginInstallUpdate := fun buildInfo client => .pending { buildInfo := buildInfo, client := client }
    GetCurrentExeDir := ["C:", "tf2bd"]
    GetCurrentProcessID := 4242
    temp_directory_path := ["C:", "Temp"]
    fmtVersion := fun v => toString v
    fmtPath := fun p => String.intercalate "/" p }

/-- The transport client. -/
def client : HTTPClient := { id := 1 }

/-- Settings with a transport client and the public channel. -/
def online : Settings := { GetHTTPClient := some client, m_ReleaseChannel := some .Public }

/-- Settings without a transport client. -/
def offline : Settings := { GetHTTPClient := none, m_ReleaseChannel := some .Public }

/-- A download entry for the running platform. -/
def nativeVariant (url : String) : BuildVariant :=
  { m_OS := { id := 0 }, m_Arch := { id := 1 }, m_DownloadURL := url }

/-- A download entry for the running OS on another architecture. -/
def otherArchVariant (url : String) : BuildVariant :=
  { m_OS := { id := 0 }, m_Arch := { id := 0 }, m_DownloadURL := url }

/-- A manifest of the given version with native updater and portable entries, each behind an
entry that matches the OS only. -/
def manifest (version : Nat) : BuildInfo Nat :=
  { m_Version := version
    m_ReleaseChannel := .Public
    m_GitHubURL := ""
    m_MSIXBundleURL := ""
    m_Updater := [otherArchVariant "updater32.zip", nativeVariant "updater64.zip"]
    m_Portable := [otherArchVariant "portable32.zip", nativeVariant "portable64.zip"] }

/-- The available update built from version 7 of the manifest. -/
def update : AvailableUpdate Nat := AvailableUpdate.new platform client (manifest 7)

/-- A manifest without any portable entry for the running platform. -/
def manifestNoPortable : BuildInfo Nat :=
  { manifest 7 with m_Portable := [otherArchVariant "portable32.zip"] }

/-- The available update built from `manifestNoPortable`. -/
def updateNoPortable : AvailableUpdate Nat := AvailableUpdate.new platform client manifestNoPortable

/-- A freshly constructed manager. -/
def fresh : UpdateManager Nat := UpdateManager.new platform

/-- A manager with the given check union and pipeline union, nothing queued. -/
def manager (check : UpdateCheckState_t Nat) (pipeline : State_t Nat) : UpdateManager Nat :=
  { m_State :=
      { m_UpdateCheckVariant := check
        m_Variant := pipeline
        m_UpdateStatus := (.Checking, "Checking for updates...") }
    m_IsUpdateQueued := false
    m_IsInstalled := false
    asyncLog := [] }

/-- A transport failure. -/
def networkError : Exn := { typeName := "http_error", what := "connection refused" }

/-- A finished download of the new build. -/
def downloaded : DownloadedBuild :=
  { m_UpdaterVariant := nativeVariant "updater64.zip"
    m_ExtractedLocation := ["C:", "Temp", "TF2 Bot Detector", "Portable Updates", "tool_1"] }

/-- A state manager whose pipeline holds the running download of the new build. -/
def downloading : StateManager Nat :=
  { m_UpdateCheckVariant := .availableUpdate update
    m_Variant := .futureDownloadedBuild (DownloadBuild platform 1 client
      (nativeVariant "portable64.zip") (nativeVariant "updater64.zip"))
    m_UpdateStatus := (.Downloading, "") }

/-- A manager whose version check has finished with the manifest of the given version, with
an empty pipeline. -/
def checkReady (version : Nat) : UpdateManager Nat :=
  manager (.future (.ready (.ok (manifest version)))) .monostate

/-- The call `GetAvailableUpdate()->BeginSelfUpdate()` a user interface makes, at clock
reading 1. -/
def userBeginsSelfUpdate (S : Settings) (m : UpdateManager Nat) : UpdateManager Nat :=
  match m.GetAvailableUpdate with
  | some u => (u.BeginSelfUpdate platform S 1 m).2
  | none => m

/-- A run from construction: the first check finds version 7, the user starts the self-update,
a second check is queued and launched while the build downloads, the download finishes and is
picked up by a tick, and then the second check fails with a transport error. -/
def checkFailedAfterDownload : UpdateManager Nat :=
  let m := UpdateManager.Update platform online fresh
  let m := m.checkTaskFinishes (.ok (manifest 7))
  let m := UpdateManager.Update platform online m
  let m := userBeginsSelfUpdate online m
  let m := m.QueueUpdateCheck
  let m := UpdateManager.Update platform online m
  let m := m.pipelineTaskFinishes .downloadedBuild (.ok downloaded)
  let m := UpdateManager.Update platform online m
  m.checkTaskFinishes (.error networkError)

/-- A manager whose version check has failed, with an empty pipeline. -/
def checkFailed : UpdateManager Nat :=
  manager (.future (.ready (.error networkError))) .monostate

/-- An installed copy of version 5 whose platform updater accepts every build. -/
def installedPlatform : Platform Nat :=
  { platform with IsInstalled := true, CanInstallUpdate := fun _ => true }

/-- The call `GetAvailableUpdate()->BeginSelfUpdate()` on the installed copy, at clock
reading 1. -/
def userBeginsInstalledUpdate (S : Settings) (m : UpdateManager Nat) : UpdateManager Nat :=
  match m.GetAvailableUpdate with
  | some u => (u.BeginSelfUpdate installedPlatform S 1 m).2
  | none => m

/-- A run of the installed copy from construction: the check finds a manifest with a native
updater entry but no native portable entry, the user starts the update, the platform updater
answers `NeedsUpdateTool`, and a tick picks that answer up. -/
def needsToolWithoutPortable : UpdateManager Nat :=
  let m := UpdateManager.Update installedPlatform online (UpdateManager.new installedPlatform)
  let m := m.checkTaskFinishes (.ok manifestNoPortable)
  let m := UpdateManager.Update installedPlatform online m
  let m := userBeginsInstalledUpdate online m
  let m := m.pipelineTaskFinishes .installResult (.ok (.NeedsUpdateTool "--update-type MSIX"))
  UpdateManager.Update installedPlatform online m

/-- A manifest without any updater entry for the running platform. -/
def manifestNoUpdater : BuildInfo Nat :=
  { manifest 7 with m_Updater := [otherArchVariant "updater32.zip"] }

/-- The run of `needsToolWithoutPortable`, with the manifest lacking a native updater entry
instead. -/
def needsToolWithoutUpdater : UpdateManager Nat :=
  let m := UpdateManager.Update installedPlatform online (UpdateManager.new installedPlatform)
  let m := m.checkTaskFinishes (.ok manifestNoUpdater)
  let m := UpdateManager.Update installedPlatform online m
  let m := userBeginsInstalledUpdate online m
  let m := m.pipelineTaskFinishes .installResult (.ok (.NeedsUpdateTool "--update-type MSIX"))
  UpdateManager.Update installedPlatform online m

/-- A launcher that starts every tool. -/
def launchWorks : Path → String → Option Exn := fun _ _ => none

/-- A launcher that fails to start any tool. -/
def launchFails : Path → String → Option Exn :=
  fun _ _ => some { typeName := "std::runtime_error", what := "CreateProcess failed" }

/-- A file system without any file. -/
def emptyDisk : FileSystem := fun _ => none

/-- Surroundings in which the download and every file operation go through; the archive holds
a program file, a directory and a settings file, and reading the settings file out of the
archive fails when `readFails` is set. -/
def outside (readFails : Bool) : Outside :=
  { GetString := fun _ url => .ok ("archive of " ++ url)
    create_directories := fun _ => none
    openFile := fun _ => none
    writeFile := fun _ => none
    openArchive := fun _ =>
      some
        [ { getName := ["tf2_bot_detector.exe"], nameIsAbsolute := false, isFile := true,
            content := "program" },
          { getName := ["cfg"], nameIsAbsolute := false, isFile := false, content := "" },
          { getName := ["cfg", "settings.json"], nameIsAbsolute := false, isFile := true,
            content := "settings" } ]
    readContent := fun _ entry =>
      if readFails && decide (entry.getName = ["cfg", "settings.json"]) then some (-1) else none
    remove := fun _ => none
    scopeExitNoexcept := true
    sourceLocation := fun line => "UpdateManager.cpp(" ++ toString line ++ ")" }

/-- The extraction directory of the download started at clock reading 1. -/
def toolDir : Path := ["C:", "Temp", "TF2 Bot Detector", "Portable Updates", "tool_1"]

/-- The decimal number a text of digits spells; other characters count as zero digits. -/
def decimal (s : String) : Nat :=
  s.toList.foldl (fun n c => 10 * n + (c.toNat - 48)) 0

/-- Conversions for versions that are natural numbers written as decimal strings, channels
named by strings, and the operating systems and architectures of the example. -/
def conversions : Conversions Nat :=
  { version := fun j =>
      match j with
      | .string s => .ok (decimal s)
      | _ => .error (type_error "type must be string")
    releaseChannel := fun j =>
      match j with
      | .string s =>
        if s = "None" then .ok .None else if s = "Public" then .ok .Public else .ok (.other s)
      | _ => .error (type_error "type must be string")
    os := fun j =>
      match j with
      | .string s =>
        if s = "Windows" then .ok { id := 0 } else if s = "Linux" then .ok { id := 1 }
        else .error (type_error "unknown OS")
      | _ => .error (type_error "type must be string")
    arch := fun j =>
      match j with
      | .string s =>
        if s = "x86" then .ok { id := 0 } else if s = "x64" then .ok { id := 1 }
        else .error (type_error "unknown architecture")
      | _ => .error (type_error "type must be string") }

/-- The JSON of a download entry. -/
def variantJson (arch url : String) : Json :=
  .object [("os", .string "Windows"), ("arch", .string arch), ("download_url", .string url)]

/-- A manifest for version 7 on the public channel, with `msix_bundle_url` and without
`github_url`. -/
def manifestJson : Json :=
  .object
    [ ("version", .string "7"),
      ("build_type", .string "Public"),
      ("msix_bundle_url", .string "bundle.msix"),
      ("updater", .array [variantJson "x86" "updater32.zip", variantJson "x64" "updater64.zip"]),
      ("portable", .array [variantJson "x86" "portable32.zip", variantJson "x64" "portable64.zip"]) ]

/-- The run of `checkFailedAfterDownload`, except that the second check ends with the manifest
of version 8. -/
def checkFoundAfterDownload : UpdateManager Nat :=
  let m := UpdateManager.Update platform online fresh
  let m := m.checkTaskFinishes (.ok (manifest 7))
  let m := UpdateManager.Update platform online m
  let m := userBeginsSelfUpdate online m
  let m := m.QueueUpdateCheck
  let m := UpdateManager.Update platform online m
  let m := m.pipelineTaskFinishes .downloadedBuild (.ok downloaded)
  let m := UpdateManager.Update platform online m
  m.checkTaskFinishes (.ok (manifest 8))

/-- A run from construction: the first tick launches the check, the check ends with the
manifest of version 7, and before the next tick another check is queued. -/
def checkFoundThenQueued : UpdateManager Nat :=
  let m := UpdateManager.Update platform online fresh
  let m := m.checkTaskFinishes (.ok (manifest 7))
  m.QueueUpdateCheck

/-- A run from construction: the check finds version 7, the user starts the self-update, the
build is downloaded and a tick stores it, and then another check is queued. -/
def downloadedAndQueued : UpdateManager Nat :=
  let m := UpdateManager.Update platform online fresh
  let m := m.checkTaskFinishes (.ok (manifest 7))
  let m := UpdateManager.Update platform online m
  let m := userBeginsSelfUpdate online m
  let m := m.pipelineTaskFinishes .downloadedBuild (.ok downloaded)
  let m := UpdateManager.Update platform online m
  m.QueueUpdateCheck

/-- Actions from construction in which the transport client goes away while the first check
is running and comes back after another check has been queued. -/
def clientGoesAndReturns : List (Action Nat) :=
  [.tick online, .tick offline, .queueUpdateCheck, .tick online]

/-- Surroundings in which the archive cannot be removed because another process, a virus
scanner for one, holds it open; `readFails` as for `outside`, and `destructorNoexcept` says
whether the destructor of `mh::scope_exit` is `noexcept`. -/
def outsideLockedArchive (readFails destructorNoexcept : Bool) : Outside :=
  { outside readFails with
    scopeExitNoexcept := destructorNoexcept
    remove := fun _ =>
      some { typeName := "std::filesystem::filesystem_error"
             what := "remove: The process cannot access the file" } }

end Example

/-! ## Variant selection: properties -/

/-- Being native, as a proposition. -/
theorem isNative_iff {V : Type} (P : Platform V) (v : BuildVariant) :
    isNative P v = true ↔ (v.m_OS = P.GetOS ∧ v.m_Arch = P.GetArch) := by
  simp [isNative]

/-- The loop of `FindNativeVariant` is find-first with the predicate `isNative`. -/
theorem FindNativeVariant_eq_find {V : Type} (P : Platform V) (variants : List BuildVariant) :
    FindNativeVariant P variants = variants.find? (isNative P) := by
  induction variants with
  | nil => rfl
  | cons variant rest ih =>
    by_cases hos : variant.m_OS = P.GetOS
    · by_cases harch : variant.m_Arch = P.GetArch
      · simp [FindNativeVariant, List.find?, isNative, hos, harch]
      · simp [FindNativeVariant, List.find?, isNative, hos, harch, ih]
    · simp [FindNativeVariant, List.find?, isNative, hos, ih]

/-- A result of `FindNativeVariant` splits the list at the first native entry. -/
theorem FindNativeVariant_some_split {V : Type} (P : Platform V) (variants : List BuildVariant)
    (v : BuildVariant) (h : FindNativeVariant P variants = some v) :
    ∃ pre post, variants = pre ++ v :: post ∧ isNative P v = true ∧
      ∀ x ∈ pre, isNative P x = false := by
  induction variants with
  | nil => simp [FindNativeVariant] at h
  | cons variant rest ih =>
    by_cases hn : isNative P variant = true
    · have hv : FindNativeVariant P (variant :: rest) = some variant := by
        rw [FindNativeVariant_eq_find]; simp [List.find?, hn]
      rw [hv] at h
      injection h with h
      subst h
      exact ⟨[], rest, rfl, hn, by simp⟩
    · have hv : FindNativeVariant P (variant :: rest) = FindNativeVariant P rest := by
        rw [FindNativeVariant_eq_find, FindNativeVariant_eq_find]; simp [List.find?, hn]
      rw [hv] at h
      obtain ⟨pre, post, hsplit, hnat, hpre⟩ := ih h
      refine ⟨variant :: pre, post, by simp [hsplit], hnat, ?_⟩
      intro x hx
      rcases List.mem_cons.mp hx with rfl | hx
      · simpa using hn
      · exact hpre x hx

/-- C2: for every list of build variants, `FindNativeVariant` is find-first with the predicate
"OS equals the native OS and architecture equals the native architecture": it equals the
specification's `selectNative`, it returns none exactly when no entry matches both fields, and a
returned entry is preceded in the list only by entries that do not match both fields. -/
theorem C2_FindNativeVariant_first_match {V : Type} (P : Platform V)
    (variants : List BuildVariant) :
    FindNativeVariant P variants = selectNative P variants ∧
    (FindNativeVariant P variants = none ↔
      ∀ v ∈ variants, ¬ (v.m_OS = P.GetOS ∧ v.m_Arch = P.GetArch)) ∧
    (∀ v, FindNativeVariant P variants = some v →
      ∃ pre post, variants = pre ++ v :: post ∧
        (v.m_OS = P.GetOS ∧ v.m_Arch = P.GetArch) ∧
        ∀ x ∈ pre, ¬ (x.m_OS = P.GetOS ∧ x.m_Arch = P.GetArch)) := by
  refine ⟨FindNativeVariant_eq_find P variants, ?_, ?_⟩
  · rw [FindNativeVariant_eq_find, List.find?_eq_none]
    constructor
    · intro h v hv hnat
      exact h v hv ((isNative_iff P v).mpr hnat)
    · intro h v hv hnat
      exact h v hv ((isNative_iff P v).mp hnat)
  · intro v hv
    obtain ⟨pre, post, hsplit, hnat, hpre⟩ := FindNativeVariant_some_split P variants v hv
    refine ⟨pre, post, hsplit, (isNative_iff P v).mp hnat, ?_⟩
    intro x hx hx2
    have := hpre x hx
    rw [(isNative_iff P x).mpr hx2] at this
    exact Bool.noConfusion this

/-! ## Self-update decision -/

/-- C8: `CanReplaceUpdateCheckState()` is true when the check union holds no stored task (an
`AvailableUpdate`, or a future without shared state, as in a freshly constructed manager),
false when it holds a valid task that is not ready, and true when it holds a valid task that is
ready. -/
theorem C8_CanReplaceUpdateCheckState {V : Type} (P : Platform V) (m : UpdateManager V) :
    (UpdateManager.new P).CanReplaceUpdateCheckState = true ∧
    m.CanReplaceUpdateCheckState =
      (match m.m_State.m_UpdateCheckVariant with
        | .availableUpdate _ => true
        | .future .invalid => true
        | .future (.pending _) => false
        | .future (.ready _) => true) := by
  refine ⟨rfl, ?_⟩
  unfold UpdateManager.CanReplaceUpdateCheckState
  cases m.m_State.m_UpdateCheckVariant with
  | availableUpdate u => rfl
  | future f => cases f <;> rfl

/-- C5: in installed mode `CanSelfUpdate()` is what `Platform::CanInstallUpdate(buildInfo)`
returns; in portable mode it is true exactly when both native variants are non-null, and the
constructor sets them to what `FindNativeVariant` finds in the updater and portable lists of
the `BuildInfo`. -/
theorem C5_CanSelfUpdate {V : Type} (P : Platform V) (client : HTTPClient)
    (buildInfo : BuildInfo V) (u : AvailableUpdate V) :
    (P.IsInstalled = true → u.CanSelfUpdate P = P.CanInstallUpdate u.m_BuildInfo) ∧
    (P.IsInstalled = false →
      (u.CanSelfUpdate P = true ↔ (u.m_Updater ≠ none ∧ u.m_Portable ≠ none))) ∧
    (AvailableUpdate.new P client buildInfo).m_BuildInfo = buildInfo ∧
    (AvailableUpdate.new P client buildInfo).m_Updater = selectNative P buildInfo.m_Updater ∧
    (AvailableUpdate.new P client buildInfo).m_Portable = selectNative P buildInfo.m_Portable ∧
    (P.IsInstalled = true →
      (AvailableUpdate.new P client buildInfo).CanSelfUpdate P = P.CanInstallUpdate buildInfo) ∧
    (P.IsInstalled = false →
      ((AvailableUpdate.new P client buildInfo).CanSelfUpdate P = true ↔
        ((FindNativeVariant P buildInfo.m_Updater).isSome = true ∧
          (FindNativeVariant P buildInfo.m_Portable).isSome = true))) := by
  refine ⟨?_, ?_, rfl, ?_, ?_, ?_, ?_⟩
  · intro h
    simp [AvailableUpdate.CanSelfUpdate, h]
  · intro h
    cases hu : u.m_Updater <;> cases hp : u.m_Portable <;>
      simp [AvailableUpdate.CanSelfUpdate, h, hu, hp]
  · simp [AvailableUpdate.new, selectNative, FindNativeVariant_eq_find]
  · simp [AvailableUpdate.new, selectNative, FindNativeVariant_eq_find]
  · intro h
    simp [AvailableUpdate.CanSelfUpdate, AvailableUpdate.new, h]
  · intro h
    cases hu : FindNativeVariant P buildInfo.m_Updater <;>
      cases hp : FindNativeVariant P buildInfo.m_Portable <;>
      simp [AvailableUpdate.CanSelfUpdate, AvailableUpdate.new, h, hu, hp]

/-- C3: for every `AvailableUpdate` and every manager state, if `CanSelfUpdate()` is false or
no transport client is available (in particular in portable mode with the native updater
variant or the native portable variant absent), `BeginSelfUpdate()` returns false and leaves the
manager, hence the pipeline state, the check state and the published status, unchanged. -/
theorem C3_BeginSelfUpdate_refuses {V : Type} (P : Platform V) (S : Settings) (now : Nat)
    (u : AvailableUpdate V) (parent : UpdateManager V)
    (h : u.CanSelfUpdate P = false ∨ S.GetHTTPClient = none ∨
      (P.IsInstalled = false ∧ (u.m_Updater = none ∨ u.m_Portable = none))) :
    u.BeginSelfUpdate P S now parent = (false, parent) ∧
    (u.BeginSelfUpdate P S now parent).2.m_State.m_Variant = parent.m_State.m_Variant ∧
    (u.BeginSelfUpdate P S now parent).2.m_State.m_UpdateCheckVariant =
      parent.m_State.m_UpdateCheckVariant ∧
    (u.BeginSelfUpdate P S now parent).2.m_State.m_UpdateStatus = parent.m_State.m_UpdateStatus := by
  have key : u.BeginSelfUpdate P S now parent = (false, parent) := by
    rcases h with h | h | ⟨hp, h⟩
    · simp [AvailableUpdate.BeginSelfUpdate, h]
    · by_cases hc : u.CanSelfUpdate P = true <;> simp [AvailableUpdate.BeginSelfUpdate, h, hc]
    · have hc : u.CanSelfUpdate P = false := by
        rcases h with h | h
        · simp [AvailableUpdate.CanSelfUpdate, hp, h]
        · cases hu : u.m_Updater <;> simp [AvailableUpdate.CanSelfUpdate, hp, h, hu]
      simp [AvailableUpdate.BeginSelfUpdate, hc]
  rw [key]
  exact ⟨rfl, rfl, rfl, rfl⟩

/-- C3 at a concrete input: a portable update without a native portable entry, asked to begin
with a transport client at hand and an empty pipeline. -/
theorem C3_BeginSelfUpdate_refuses_witness :
    Example.updateNoPortable.BeginSelfUpdate Example.platform Example.online 1
        (Example.manager (.availableUpdate Example.updateNoPortable) .monostate) =
      (false, Example.manager (.availableUpdate Example.updateNoPortable) .monostate) :=
  (C3_BeginSelfUpdate_refuses Example.platform Example.online 1 Example.updateNoPortable
    (Example.manager (.availableUpdate Example.updateNoPortable) .monostate)
    (Or.inr (Or.inr ⟨rfl, Or.inr (by decide)⟩))).1

/-- C4 as stated fails: a portable update with both native variants resolved, asked to begin
while no transport client is available, returns false and arms nothing. -/
theorem C4_portable_begin_without_client :
    Example.platform.IsInstalled = false ∧
    Example.update.m_Updater = some (Example.nativeVariant "updater64.zip") ∧
    Example.update.m_Portable = some (Example.nativeVariant "portable64.zip") ∧
    Example.offline.GetHTTPClient = none ∧
    Example.update.BeginSelfUpdate Example.platform Example.offline 1
        (Example.manager (.availableUpdate Example.update) .monostate) =
      (false, Example.manager (.availableUpdate Example.update) .monostate) := by
  refine ⟨rfl, by decide, by decide, rfl, ?_⟩
  have hc : Example.update.CanSelfUpdate Example.platform = true := by decide
  simp [AvailableUpdate.BeginSelfUpdate, hc, Example.offline]

/-- C4, amended: in portable mode, for every `AvailableUpdate` whose native updater variant
and native portable variant are both resolved, and with a transport client available,
`BeginSelfUpdate()` returns true and replaces the pipeline state with the in-flight task
created by `DownloadBuild(client, portableVariant, updaterVariant)`, publishing the status
`Downloading`; exactly that one task is started and the check state is left as it was. -/
theorem C4_BeginSelfUpdate_portable_arms {V : Type} (P : Platform V) (S : Settings) (now : Nat)
    (u : AvailableUpdate V) (parent : UpdateManager V) (client : HTTPClient)
    (portable updater : BuildVariant)
    (hportableMode : P.IsInstalled = false)
    (hupdater : u.m_Updater = some updater)
    (hportable : u.m_Portable = some portable)
    (hclient : S.GetHTTPClient = some client) :
    (u.BeginSelfUpdate P S now parent).1 = true ∧
    (u.BeginSelfUpdate P S now parent).2.m_State.m_Variant =
      .futureDownloadedBuild (DownloadBuild P now client portable updater) ∧
    DownloadBuild P now client portable updater =
      .pending { clientPtr := client, tool := portable, updater := updater,
                 downloadDir := (DOWNLOAD_DIR_ROOT P).append ("tool_" ++ toString now) } ∧
    (u.BeginSelfUpdate P S now parent).2.m_State.m_UpdateStatus.1 = UpdateStatus.Downloading ∧
    (u.BeginSelfUpdate P S now parent).2.m_State.m_UpdateCheckVariant =
      parent.m_State.m_UpdateCheckVariant ∧
    (u.BeginSelfUpdate P S now parent).2.asyncLog =
      AsyncTask.downloadBuild
          (DownloadBuildTask.mk client portable updater
            ((DOWNLOAD_DIR_ROOT P).append ("tool_" ++ toString now))) ::
        parent.asyncLog := by
  have hc : u.CanSelfUpdate P = true := by
    simp [AvailableUpdate.CanSelfUpdate, hportableMode, hupdater, hportable]
  simp [AvailableUpdate.BeginSelfUpdate, hc, hclient, hportableMode, hupdater, hportable,
    DownloadBuild, logAsync, StateManager.Set, StateManager.SetUpdateStatus]

/-- C4, amended, at a concrete input: the portable update of the example, with a client. -/
theorem C4_BeginSelfUpdate_portable_arms_witness :
    (Example.update.BeginSelfUpdate Example.platform Example.online 1
        (Example.manager (.availableUpdate Example.update) .monostate)).1 = true :=
  (C4_BeginSelfUpdate_portable_arms Example.platform Example.online 1 Example.update
    (Example.manager (.availableUpdate Example.update) .monostate) Example.client
    (Example.nativeVariant "portable64.zip") (Example.nativeVariant "updater64.zip")
    rfl (by decide) (by decide) rfl).1

/-! ## Resolving a pipeline task -/

/-- The state `Update<T>` reads decides whether it holds a `std::future<T>`. -/
theorem get_if_future_emplaceFuture {V : Type} (T : ResultType)
    (f : Future (T.Task V) T.Value) :
    get_if_future T (emplaceFuture T f : State_t V) = some f := by
  cases T <;> rfl

/-- Conversely, `get_if` succeeds only on the alternative `std::future<T>`. -/
theorem get_if_future_eq_some {V : Type} (T : ResultType) (variant : State_t V)
    (f : Future (T.Task V) T.Value) (h : get_if_future T variant = some f) :
    variant = emplaceFuture T f := by
  cases T <;> cases variant <;> simp [get_if_future] at h <;> simp [emplaceFuture, h]

/-- A stored value of type `T` is not a `std::future` of any result type. -/
theorem get_if_future_emplace {V : Type} (T T2 : ResultType) (v : T.Value) :
    get_if_future T2 (emplace T v : State_t V) = none := by
  cases T <;> cases T2 <;> rfl

/-- The empty pipeline is not a `std::future` of any result type. -/
theorem get_if_future_monostate {V : Type} (T : ResultType) :
    get_if_future T (State_t.monostate : State_t V) = none := by
  cases T <;> rfl

/-- C9: for every result type `T` (the four the pipeline union has), when the union holds a
`std::future<T>` that is ready, `Update<T>(success, successMsg, failure, failureMsg)` resolves
it. If the task produced a value, the union then holds exactly that value, as its alternative
`T`, and the published status is `(success, successMsg)`; if the task failed with an error, the
union is then empty and the published status is `failure` with the message made of
`failureMsg`, the error's type name and the error's message. The check state is untouched
either way. -/
theorem C9_Update_resolves_ready {V : Type} (sm : StateManager V)
    (success : UpdateStatus) (successMsg : String) (failure : UpdateStatus) (failureMsg : String) :
    (∀ value : DownloadedBuild,
      sm.m_Variant = .futureDownloadedBuild (.ready (.ok value)) →
      sm.Update .downloadedBuild success successMsg failure failureMsg =
        (true, { m_UpdateCheckVariant := sm.m_UpdateCheckVariant
                 m_Variant := .downloadedBuild value
                 m_UpdateStatus := (success, successMsg) })) ∧
    (∀ value : InstallResult,
      sm.m_Variant = .futureInstallResult (.ready (.ok value)) →
      sm.Update .installResult success successMsg failure failureMsg =
        (true, { m_UpdateCheckVariant := sm.m_UpdateCheckVariant
                 m_Variant := .installResult value
                 m_UpdateStatus := (success, successMsg) })) ∧
    (∀ value : DownloadedUpdateTool,
      sm.m_Variant = .futureDownloadedUpdateTool (.ready (.ok value)) →
      sm.Update .downloadedUpdateTool success successMsg failure failureMsg =
        (true, { m_UpdateCheckVariant := sm.m_UpdateCheckVariant
                 m_Variant := .downloadedUpdateTool value
                 m_UpdateStatus := (success, successMsg) })) ∧
    (∀ value : UpdateToolResult,
      sm.m_Variant = .futureUpdateToolResult (.ready (.ok value)) →
      sm.Update .updateToolResult success successMsg failure failureMsg =
        (true, { m_UpdateCheckVariant := sm.m_UpdateCheckVariant
                 m_Variant := .updateToolResult value
                 m_UpdateStatus := (success, successMsg) })) ∧
    (∀ e : Exn,
      (sm.m_Variant = .futureDownloadedBuild (.ready (.error e)) →
        sm.Update .downloadedBuild success successMsg failure failureMsg =
          (true, { m_UpdateCheckVariant := sm.m_UpdateCheckVariant
                   m_Variant := .monostate
                   m_UpdateStatus :=
                     (failure, failureMsg ++ ":\n\t- " ++ e.typeName ++ "\n\t- " ++ e.what) })) ∧
      (sm.m_Variant = .futureInstallResult (.ready (.error e)) →
        sm.Update .installResult success successMsg failure failureMsg =
          (true, { m_UpdateCheckVariant := sm.m_UpdateCheckVariant
                   m_Variant := .monostate
                   m_UpdateStatus :=
                     (failure, failureMsg ++ ":\n\t- " ++ e.typeName ++ "\n\t- " ++ e.what) })) ∧
      (sm.m_Variant = .futureDownloadedUpdateTool (.ready (.error e)) →
        sm.Update .downloadedUpdateTool success successMsg failure failureMsg =
          (true, { m_UpdateCheckVariant := sm.m_UpdateCheckVariant
                   m_Variant := .monostate
                   m_UpdateStatus :=
                     (failure, failureMsg ++ ":\n\t- " ++ e.typeName ++ "\n\t- " ++ e.what) })) ∧
      (sm.m_Variant = .futureUpdateToolResult (.ready (.error e)) →
        sm.Update .updateToolResult success successMsg failure failureMsg =
          (true, { m_UpdateCheckVariant := sm.m_UpdateCheckVariant
                   m_Variant := .monostate
                   m_UpdateStatus :=
                     (failure, failureMsg ++ ":\n\t- " ++ e.typeName ++ "\n\t- " ++ e.what) }))) := by
  refine ⟨?_, ?_, ?_, ?_, ?_⟩
  · intro value h
    simp [StateManager.Update, StateManager.UpdateVariant, h, get_if_future, is_future_ready,
      Future.get?, emplace, StateManager.SetUpdateStatus]
  · intro value h
    simp [StateManager.Update, StateManager.UpdateVariant, h, get_if_future, is_future_ready,
      Future.get?, emplace, StateManager.SetUpdateStatus]
  · intro value h
    simp [StateManager.Update, StateManager.UpdateVariant, h, get_if_future, is_future_ready,
      Future.get?, emplace, StateManager.SetUpdateStatus]
  · intro value h
    simp [StateManager.Update, StateManager.UpdateVariant, h, get_if_future, is_future_ready,
      Future.get?, emplace, StateManager.SetUpdateStatus]
  · intro e
    refine ⟨?_, ?_, ?_, ?_⟩ <;> intro h <;>
      simp [StateManager.Update, StateManager.UpdateVariant, h, get_if_future, is_future_ready,
        Future.get?, StateManager.Clear, StateManager.Set, StateManager.SetUpdateStatus,
        failureText]

/-- C9 at concrete inputs: an update tool run that reports success, a download that produced a
build, and a download that failed with a transport error. -/
theorem C9_Update_resolves_ready_witness :
    (({ m_UpdateCheckVariant := .availableUpdate Example.update
        m_Variant := .futureUpdateToolResult (.ready (.ok { m_Success := true }))
        m_UpdateStatus := (.Updating, "") } : StateManager Nat).Update .updateToolResult
      .UpdateSuccess "Update complete." .UpdateFailed "Update failed.") =
    (true,
      { m_UpdateCheckVariant := .availableUpdate Example.update
        m_Variant := .updateToolResult { m_Success := true }
        m_UpdateStatus := (.UpdateSuccess, "Update complete.") }) ∧
    (({ m_UpdateCheckVariant := .availableUpdate Example.update
        m_Variant := .futureDownloadedBuild (.ready (.ok Example.downloaded))
        m_UpdateStatus := (.Downloading, "") } : StateManager Nat).Update .downloadedBuild
      .DownloadSuccess "Finished downloading new version."
      .DownloadFailed "Failed to download new version.") =
    (true,
      { m_UpdateCheckVariant := .availableUpdate Example.update
        m_Variant := .downloadedBuild Example.downloaded
        m_UpdateStatus := (.DownloadSuccess, "Finished downloading new version.") }) ∧
    (({ m_UpdateCheckVariant := .availableUpdate Example.update
        m_Variant := .futureDownloadedBuild (.ready (.error Example.networkError))
        m_UpdateStatus := (.Downloading, "") } : StateManager Nat).Update .downloadedBuild
      .DownloadSuccess "Finished downloading new version."
      .DownloadFailed "Failed to download new version.") =
    (true,
      { m_UpdateCheckVariant := .availableUpdate Example.update
        m_Variant := .monostate
        m_UpdateStatus := (.DownloadFailed,
          "Failed to download new version." ++ ":\n\t- " ++ "http_error" ++ "\n\t- " ++
            "connection refused") }) :=
  ⟨(C9_Update_resolves_ready _ .UpdateSuccess "Update complete." .UpdateFailed
      "Update failed.").2.2.2.1 { m_Success := true } rfl,
    (C9_Update_resolves_ready _ .DownloadSuccess "Finished downloading new version."
      .DownloadFailed "Failed to download new version.").1 Example.downloaded rfl,
    ((C9_Update_resolves_ready _ .DownloadSuccess "Finished downloading new version."
      .DownloadFailed "Failed to download new version.").2.2.2.2 Example.networkError).1 rfl⟩

/-- A call of `Update<T>` on a union that holds no ready `std::future<T>` changes nothing. -/
theorem Update_noop_of_not_ready {V : Type} (T : ResultType) (sm : StateManager V)
    (success : UpdateStatus) (successMsg : String) (failure : UpdateStatus) (failureMsg : String)
    (h : get_if_future T sm.m_Variant = none ∨
      ∃ f, get_if_future T sm.m_Variant = some f ∧ is_future_ready f = false) :
    (sm.Update T success successMsg failure failureMsg).2 = sm := by
  unfold StateManager.Update StateManager.UpdateVariant
  rcases h with h | ⟨f, h, hf⟩
  · rw [h]
  · rw [h]
    simp [hf]

/-- After any call of `Update<T>` the union holds no ready `std::future<T>`. -/
theorem Update_leaves_no_ready {V : Type} (T : ResultType) (sm : StateManager V)
    (success : UpdateStatus) (successMsg : String) (failure : UpdateStatus) (failureMsg : String) :
    get_if_future T (sm.Update T success successMsg failure failureMsg).2.m_Variant = none ∨
      ∃ f, get_if_future T (sm.Update T success successMsg failure failureMsg).2.m_Variant = some f ∧
        is_future_ready f = false := by
  unfold StateManager.Update StateManager.UpdateVariant
  cases h : get_if_future T sm.m_Variant with
  | none => exact Or.inl (by simp [h])
  | some f =>
    cases f with
    | invalid => exact Or.inr ⟨.invalid, by simp [is_future_ready, h], rfl⟩
    | pending d => exact Or.inr ⟨.pending d, by simp [is_future_ready, h], rfl⟩
    | ready r =>
      cases r with
      | ok v =>
        exact Or.inl (by simp [is_future_ready, Future.get?, get_if_future_emplace])
      | error e =>
        exact Or.inl (by simp [is_future_ready, Future.get?, StateManager.Clear,
          StateManager.Set, get_if_future_monostate])

/-- The four `Update<T>` calls of a tick, run again right away, change nothing. -/
theorem pollPipeline_idempotent {V : Type} (sm : StateManager V) :
    UpdateManager.pollPipeline (UpdateManager.pollPipeline sm) = UpdateManager.pollPipeline sm := by
  obtain ⟨check, variant, status⟩ := sm
  cases variant with
  | futureDownloadedBuild f =>
    rcases f with _ | d | (e | v) <;>
      simp [UpdateManager.pollPipeline, StateManager.Update, StateManager.UpdateVariant,
        get_if_future, is_future_ready, Future.get?, emplace, StateManager.Clear,
        StateManager.Set, StateManager.SetUpdateStatus]
  | futureInstallResult f =>
    rcases f with _ | d | (e | v) <;>
      simp [UpdateManager.pollPipeline, StateManager.Update, StateManager.UpdateVariant,
        get_if_future, is_future_ready, Future.get?, emplace, StateManager.Clear,
        StateManager.Set, StateManager.SetUpdateStatus]
  | futureDownloadedUpdateTool f =>
    rcases f with _ | d | (e | v) <;>
      simp [UpdateManager.pollPipeline, StateManager.Update, StateManager.UpdateVariant,
        get_if_future, is_future_ready, Future.get?, emplace, StateManager.Clear,
        StateManager.Set, StateManager.SetUpdateStatus]
  | futureUpdateToolResult f =>
    rcases f with _ | d | (e | v) <;>
      simp [UpdateManager.pollPipeline, StateManager.Update, StateManager.UpdateVariant,
        get_if_future, is_future_ready, Future.get?, emplace, StateManager.Clear,
        StateManager.Set, StateManager.SetUpdateStatus]
  | _ =>
    simp [UpdateManager.pollPipeline, StateManager.Update, StateManager.UpdateVariant,
      get_if_future]

/-- C10: for every result type `T`, `Update<T>` leaves the pipeline union, the check state and
the published status unchanged when the union holds a `std::future<T>` that is not ready, or
holds anything other than a `std::future<T>`; hence a second call of `Update<T>` right after
any call, in particular after one that resolved the task, changes nothing, whatever its
arguments, and so does running the four `Update<T>` calls of a tick a second time. -/
theorem C10_Update_frame {V : Type} (T : ResultType) (sm : StateManager V)
    (success : UpdateStatus) (successMsg : String) (failure : UpdateStatus) (failureMsg : String)
    (h : get_if_future T sm.m_Variant = none ∨
      ∃ f, get_if_future T sm.m_Variant = some f ∧ is_future_ready f = false) :
    (sm.Update T success successMsg failure failureMsg).2 = sm ∧
    ∀ (before : StateManager V) (success2 : UpdateStatus) (successMsg2 : String)
      (failure2 : UpdateStatus) (failureMsg2 : String),
      ((before.Update T success successMsg failure failureMsg).2.Update T
          success2 successMsg2 failure2 failureMsg2).2 =
        (before.Update T success successMsg failure failureMsg).2 ∧
      UpdateManager.pollPipeline (UpdateManager.pollPipeline before) =
        UpdateManager.pollPipeline before := by
  refine ⟨Update_noop_of_not_ready T sm success successMsg failure failureMsg h, ?_⟩
  intro before success2 successMsg2 failure2 failureMsg2
  exact ⟨Update_noop_of_not_ready T _ success2 successMsg2 failure2 failureMsg2
    (Update_leaves_no_ready T before success successMsg failure failureMsg),
    pollPipeline_idempotent before⟩

/-- C10 at a concrete input: polling for a downloaded build while the download is running. -/
theorem C10_Update_frame_witness :
    (Example.downloading.Update .downloadedBuild
      .DownloadSuccess "Finished downloading new version."
      .DownloadFailed "Failed to download new version.").2 = Example.downloading :=
  (C10_Update_frame .downloadedBuild Example.downloading
    .DownloadSuccess "Finished downloading new version."
    .DownloadFailed "Failed to download new version."
    (Or.inr ⟨_, rfl, rfl⟩)).1

/-! ## The tick -/

/-- The pipeline half of a tick never touches the check union or the queued flag, starts no
version check, and publishes a status only together with a change of the pipeline union. -/
theorem pipeline_frame {V : Type} (P : Platform V) (S : Settings) (m : UpdateManager V) :
    (UpdateManager.pollPipeline (UpdateManager.advancePipeline P S m).m_State).m_UpdateCheckVariant =
      m.m_State.m_UpdateCheckVariant ∧
    (UpdateManager.advancePipeline P S m).m_IsUpdateQueued = m.m_IsUpdateQueued ∧
    (UpdateManager.advancePipeline P S m).asyncLog.filter AsyncTask.isCheck =
      m.asyncLog.filter AsyncTask.isCheck ∧
    ((UpdateManager.pollPipeline (UpdateManager.advancePipeline P S m).m_State).m_Variant =
        m.m_State.m_Variant →
      (UpdateManager.pollPipeline (UpdateManager.advancePipeline P S m).m_State).m_UpdateStatus =
        m.m_State.m_UpdateStatus) := by
  obtain ⟨⟨check, variant, status⟩, queued, installed, log⟩ := m
  obtain ⟨client, channel⟩ := S
  cases variant with
  | monostate =>
    simp [UpdateManager.advancePipeline, UpdateManager.pollPipeline, StateManager.Update,
      StateManager.UpdateVariant, get_if_future]
  | futureDownloadedBuild f =>
    rcases f with _ | d | (e | v) <;>
      simp [UpdateManager.advancePipeline, UpdateManager.pollPipeline, StateManager.Update,
        StateManager.UpdateVariant, get_if_future, is_future_ready, Future.get?, emplace,
        StateManager.Clear, StateManager.Set, StateManager.SetUpdateStatus]
  | futureInstallResult f =>
    rcases f with _ | d | (e | v) <;>
      simp [UpdateManager.advancePipeline, UpdateManager.pollPipeline, StateManager.Update,
        StateManager.UpdateVariant, get_if_future, is_future_ready, Future.get?, emplace,
        StateManager.Clear, StateManager.Set, StateManager.SetUpdateStatus]
  | futureDownloadedUpdateTool f =>
    rcases f with _ | d | (e | v) <;>
      simp [UpdateManager.advancePipeline, UpdateManager.pollPipeline, StateManager.Update,
        StateManager.UpdateVariant, get_if_future, is_future_ready, Future.get?, emplace,
        StateManager.Clear, StateManager.Set, StateManager.SetUpdateStatus]
  | futureUpdateToolResult f =>
    rcases f with _ | d | (e | v) <;>
      simp [UpdateManager.advancePipeline, UpdateManager.pollPipeline, StateManager.Update,
        StateManager.UpdateVariant, get_if_future, is_future_ready, Future.get?, emplace,
        StateManager.Clear, StateManager.Set, StateManager.SetUpdateStatus]
  | downloadedBuild v =>
    cases client <;>
      simp [UpdateManager.advancePipeline, UpdateManager.pollPipeline, StateManager.Update,
        StateManager.UpdateVariant, get_if_future, is_future_ready, StateManager.Clear,
        StateManager.Set, StateManager.SetUpdateStatus, DownloadUpdateTool, logAsync,
        AsyncTask.isCheck]
  | installResult r =>
    cases r with
    | NeedsUpdateTool args =>
      cases check with
      | future f =>
        simp [UpdateManager.advancePipeline, UpdateManager.pollPipeline, StateManager.Update,
          StateManager.UpdateVariant, get_if_future, UpdateManager.GetAvailableUpdate,
          StateManager.Clear, StateManager.Set, StateManager.SetUpdateStatus]
      | availableUpdate u =>
        cases hu : u.m_Updater <;> cases client <;>
          simp [UpdateManager.advancePipeline, UpdateManager.pollPipeline, StateManager.Update,
            StateManager.UpdateVariant, get_if_future, is_future_ready,
            UpdateManager.GetAvailableUpdate, StateManager.Clear, StateManager.Set,
            StateManager.SetUpdateStatus, DownloadUpdateTool, logAsync, AsyncTask.isCheck, hu]
    | _ =>
      simp [UpdateManager.advancePipeline, UpdateManager.pollPipeline, StateManager.Update,
        StateManager.UpdateVariant, get_if_future]
  | downloadedUpdateTool v =>
    simp [UpdateManager.advancePipeline, UpdateManager.pollPipeline, StateManager.Update,
      StateManager.UpdateVariant, get_if_future, is_future_ready, StateManager.Set,
      StateManager.SetUpdateStatus, RunUpdateTool, logAsync, AsyncTask.isCheck]
  | updateToolResult v =>
    simp [UpdateManager.advancePipeline, UpdateManager.pollPipeline, StateManager.Update,
      StateManager.UpdateVariant, get_if_future]

/-- The launch step leaves the pipeline union alone. -/
theorem launchUpdateCheck_variant {V : Type} (S : Settings) (m : UpdateManager V) :
    (UpdateManager.launchUpdateCheck S m).m_State.m_Variant = m.m_State.m_Variant := by
  unfold UpdateManager.launchUpdateCheck
  split
  · cases S.GetHTTPClient with
    | none => rfl
    | some c =>
      by_cases hch : S.m_ReleaseChannel.getD ReleaseChannel.None = ReleaseChannel.None <;>
        simp [hch, StateManager.SetUpdateCheck, StateManager.SetUpdateStatus]
  · rfl

/-- Without a queued check the launch step does nothing. -/
theorem launchUpdateCheck_not_queued {V : Type} (S : Settings) (m : UpdateManager V)
    (h : m.m_IsUpdateQueued = false) : UpdateManager.launchUpdateCheck S m = m := by
  simp [UpdateManager.launchUpdateCheck, h]

/-- While the stored check task is not ready the launch step does nothing. -/
theorem launchUpdateCheck_pending {V : Type} (S : Settings) (m : UpdateManager V) (t : CheckTask)
    (h : m.m_State.m_UpdateCheckVariant = .future (.pending t)) :
    UpdateManager.launchUpdateCheck S m = m := by
  simp [UpdateManager.launchUpdateCheck, UpdateManager.CanReplaceUpdateCheckState, h,
    Future.valid, is_future_ready]

/-- The resolve step touches only the check union and the published status. -/
theorem resolveUpdateCheck_frame {V : Type} [LinearOrder V] (P : Platform V) (S : Settings)
    (m : UpdateManager V) :
    (UpdateManager.resolveUpdateCheck P S m).m_State.m_Variant = m.m_State.m_Variant ∧
    (UpdateManager.resolveUpdateCheck P S m).m_IsUpdateQueued = m.m_IsUpdateQueued ∧
    (UpdateManager.resolveUpdateCheck P S m).asyncLog = m.asyncLog := by
  unfold UpdateManager.resolveUpdateCheck
  cases m.m_State.m_UpdateCheckVariant with
  | availableUpdate u => exact ⟨rfl, rfl, rfl⟩
  | future f =>
    cases S.GetHTTPClient with
    | none => exact ⟨rfl, rfl, rfl⟩
    | some c =>
      rcases f with _ | d | (e | bi)
      · exact ⟨rfl, rfl, rfl⟩
      · exact ⟨rfl, rfl, rfl⟩
      · exact ⟨rfl, rfl, rfl⟩
      · by_cases hv : (AvailableUpdate.new P c bi).m_BuildInfo.m_Version ≤ P.VERSION <;>
          simp [is_future_ready, Future.get?, hv, StateManager.SetUpdateCheck,
            StateManager.SetUpdateStatus]

/-- What a whole tick leaves behind, in terms of its check half. -/
theorem Update_after_check_half {V : Type} [LinearOrder V] (P : Platform V) (S : Settings)
    (m : UpdateManager V) :
    (UpdateManager.Update P S m).m_State.m_UpdateCheckVariant =
      (UpdateManager.resolveUpdateCheck P S
        (UpdateManager.launchUpdateCheck S m)).m_State.m_UpdateCheckVariant ∧
    (UpdateManager.Update P S m).m_IsUpdateQueued =
      (UpdateManager.launchUpdateCheck S m).m_IsUpdateQueued ∧
    (UpdateManager.Update P S m).asyncLog.filter AsyncTask.isCheck =
      (UpdateManager.launchUpdateCheck S m).asyncLog.filter AsyncTask.isCheck ∧
    ((UpdateManager.Update P S m).m_State.m_Variant = m.m_State.m_Variant →
      (UpdateManager.Update P S m).m_State.m_UpdateStatus =
        (UpdateManager.resolveUpdateCheck P S
          (UpdateManager.launchUpdateCheck S m)).m_State.m_UpdateStatus) := by
  have hp := pipeline_frame P S
    (UpdateManager.resolveUpdateCheck P S (UpdateManager.launchUpdateCheck S m))
  have hr := resolveUpdateCheck_frame P S (UpdateManager.launchUpdateCheck S m)
  have hl := launchUpdateCheck_variant S m
  obtain ⟨hp1, hp2, hp3, hp4⟩ := hp
  obtain ⟨hr1, hr2, hr3⟩ := hr
  refine ⟨hp1, ?_, ?_, ?_⟩
  · show (UpdateManager.advancePipeline P S _).m_IsUpdateQueued = _
    rw [hp2, hr2]
  · show (UpdateManager.advancePipeline P S _).asyncLog.filter AsyncTask.isCheck = _
    rw [hp3, hr3]
  · intro h
    apply hp4
    rw [hr1, hl]
    exact h

/-- A tick with nothing queued starts no version check and queues none. -/
theorem Update_not_queued {V : Type} [LinearOrder V] (P : Platform V) (S : Settings)
    (m : UpdateManager V) (hq : m.m_IsUpdateQueued = false) :
    (UpdateManager.Update P S m).m_IsUpdateQueued = false ∧
    (UpdateManager.Update P S m).asyncLog.filter AsyncTask.isCheck =
      m.asyncLog.filter AsyncTask.isCheck := by
  obtain ⟨_, h2, h3, _⟩ := Update_after_check_half P S m
  rw [launchUpdateCheck_not_queued S m hq] at h2 h3
  exact ⟨h2.trans hq, h3⟩

/-- A tick with nothing queued and an empty check state leaves the check state empty. -/
theorem Update_check_stays_empty {V : Type} [LinearOrder V] (P : Platform V) (S : Settings)
    (m : UpdateManager V) (hq : m.m_IsUpdateQueued = false)
    (hempty : m.m_State.m_UpdateCheckVariant = .future .invalid) :
    (UpdateManager.Update P S m).m_State.m_UpdateCheckVariant = .future .invalid := by
  obtain ⟨h1, _, _, _⟩ := Update_after_check_half P S m
  rw [launchUpdateCheck_not_queued S m hq] at h1
  rw [h1]
  unfold UpdateManager.resolveUpdateCheck
  rw [hempty]
  cases S.GetHTTPClient <;> simp [is_future_ready, StateManager.ClearUpdateCheck, hempty]

/-- Any number of further ticks with nothing queued and an empty check state start no version
check and leave the check state empty. -/
theorem ticks_stay_idle {V : Type} [LinearOrder V] (P : Platform V) (later : List Settings) :
    ∀ m : UpdateManager V, m.m_IsUpdateQueued = false →
      m.m_State.m_UpdateCheckVariant = .future .invalid →
      (UpdateManager.ticks P later m).m_IsUpdateQueued = false ∧
      (UpdateManager.ticks P later m).m_State.m_UpdateCheckVariant = .future .invalid ∧
      (UpdateManager.ticks P later m).asyncLog.filter AsyncTask.isCheck =
        m.asyncLog.filter AsyncTask.isCheck := by
  induction later with
  | nil => intro m hq hempty; exact ⟨hq, hempty, rfl⟩
  | cons S later ih =>
    intro m hq hempty
    obtain ⟨hq2, hlog⟩ := Update_not_queued P S m hq
    have hempty2 := Update_check_stays_empty P S m hq hempty
    obtain ⟨h1, h2, h3⟩ := ih (UpdateManager.Update P S m) hq2 hempty2
    exact ⟨h1, h2, h3.trans hlog⟩

/-- C6 as stated fails. In a run from construction, a second version check fails while the
build the user asked for has just been downloaded; nothing is queued. The tick that resolves the
failed check goes on to start the update tool download, so the status published after the tick
is `UpdateToolDownloading`, not `CheckFailed`. -/
theorem C6_status_after_tick_not_CheckFailed :
    Example.checkFailedAfterDownload.m_State.m_UpdateCheckVariant =
      .future (.ready (.error Example.networkError)) ∧
    Example.checkFailedAfterDownload.m_State.m_Variant = .downloadedBuild Example.downloaded ∧
    Example.checkFailedAfterDownload.m_IsUpdateQueued = false ∧
    (UpdateManager.Update Example.platform Example.online
      Example.checkFailedAfterDownload).m_State.m_UpdateStatus.1 =
        UpdateStatus.UpdateToolDownloading ∧
    (UpdateManager.Update Example.platform Example.online
      Example.checkFailedAfterDownload).m_State.m_UpdateStatus.1 ≠ UpdateStatus.CheckFailed := by
  refine ⟨rfl, rfl, rfl, by decide, by decide⟩

/-- C6, amended: if the in-flight version-check task has completed with an error when a tick
runs with no new check queued, the check step of the tick publishes `CheckFailed`, and after
the tick `GetAvailableUpdate()` returns none (the check state is empty) and `m_IsUpdateQueued`
is still false; the published status after the tick is `CheckFailed` unless the pipeline union
changed in the same tick. No further tick starts a version check or fills the check state
while `QueueUpdateCheck()` is not called. -/
theorem C6_failed_check_clears_state {V : Type} [LinearOrder V] (P : Platform V) (S : Settings)
    (m : UpdateManager V) (e : Exn)
    (hfailed : m.m_State.m_UpdateCheckVariant = .future (.ready (.error e)))
    (hq : m.m_IsUpdateQueued = false) :
    (UpdateManager.resolveUpdateCheck P S
      (UpdateManager.launchUpdateCheck S m)).m_State.m_UpdateStatus.1 = UpdateStatus.CheckFailed ∧
    ((UpdateManager.Update P S m).m_State.m_Variant = m.m_State.m_Variant →
      (UpdateManager.Update P S m).m_State.m_UpdateStatus.1 = UpdateStatus.CheckFailed) ∧
    (UpdateManager.Update P S m).GetAvailableUpdate = none ∧
    (UpdateManager.Update P S m).m_State.m_UpdateCheckVariant = .future .invalid ∧
    (UpdateManager.Update P S m).m_IsUpdateQueued = false ∧
    (UpdateManager.Update P S m).asyncLog.filter AsyncTask.isCheck =
      m.asyncLog.filter AsyncTask.isCheck ∧
    ∀ later : List Settings,
      (UpdateManager.ticks P later (UpdateManager.Update P S m)).m_IsUpdateQueued = false ∧
      (UpdateManager.ticks P later (UpdateManager.Update P S m)).GetAvailableUpdate = none ∧
      (UpdateManager.ticks P later (UpdateManager.Update P S m)).asyncLog.filter
        AsyncTask.isCheck = m.asyncLog.filter AsyncTask.isCheck := by
  have hstep : (UpdateManager.resolveUpdateCheck P S
        (UpdateManager.launchUpdateCheck S m)).m_State.m_UpdateStatus.1 =
          UpdateStatus.CheckFailed ∧
      (UpdateManager.resolveUpdateCheck P S
        (UpdateManager.launchUpdateCheck S m)).m_State.m_UpdateCheckVariant =
          .future .invalid := by
    rw [launchUpdateCheck_not_queued S m hq]
    unfold UpdateManager.resolveUpdateCheck
    rw [hfailed]
    cases S.GetHTTPClient <;>
      simp [is_future_ready, Future.get?, StateManager.ClearUpdateCheck,
        StateManager.SetUpdateStatus]
  obtain ⟨hstatus, hcheck⟩ := hstep
  obtain ⟨hu1, _, _, hu4⟩ := Update_after_check_half P S m
  obtain ⟨hq2, hlog⟩ := Update_not_queued P S m hq
  have hempty : (UpdateManager.Update P S m).m_State.m_UpdateCheckVariant = .future .invalid := by
    rw [hu1, hcheck]
  refine ⟨hstatus, ?_, ?_, hempty, hq2, hlog, ?_⟩
  · intro h
    rw [hu4 h, hstatus]
  · simp [UpdateManager.GetAvailableUpdate, hempty]
  · intro later
    obtain ⟨h1, h2, h3⟩ := ticks_stay_idle P later (UpdateManager.Update P S m) hq2 hempty
    exact ⟨h1, by simp [UpdateManager.GetAvailableUpdate, h2], h3.trans hlog⟩

/-- C6, amended, at a concrete input: the check fails with a transport error while the
pipeline is empty. -/
theorem C6_failed_check_clears_state_witness :
    (UpdateManager.Update Example.platform Example.online Example.checkFailed
      ).m_State.m_UpdateStatus.1 = UpdateStatus.CheckFailed ∧
    (UpdateManager.Update Example.platform Example.online Example.checkFailed
      ).GetAvailableUpdate = none ∧
    (UpdateManager.Update Example.platform Example.online Example.checkFailed
      ).m_IsUpdateQueued = false :=
  have h := C6_failed_check_clears_state Example.platform Example.online Example.checkFailed
    Example.networkError rfl rfl
  ⟨h.2.1 rfl, h.2.2.1, h.2.2.2.2.1⟩

/-- The launch step, when all four conditions hold. -/
theorem launchUpdateCheck_launches {V : Type} (S : Settings) (m : UpdateManager V)
    (client : HTTPClient)
    (hq : m.m_IsUpdateQueued = true) (hreplace : m.CanReplaceUpdateCheckState = true)
    (hchannel : S.m_ReleaseChannel.getD ReleaseChannel.None ≠ ReleaseChannel.None)
    (hclient : S.GetHTTPClient = some client) :
    UpdateManager.launchUpdateCheck S m =
      { m_State :=
          { m_UpdateCheckVariant :=
              .future (.pending (CheckTask.mk client (S.m_ReleaseChannel.getD ReleaseChannel.None)))
            m_Variant := m.m_State.m_Variant
            m_UpdateStatus := (UpdateStatus.Checking, "Checking for updates...") }
        m_IsUpdateQueued := false
        m_IsInstalled := m.m_IsInstalled
        asyncLog :=
          AsyncTask.check (CheckTask.mk client (S.m_ReleaseChannel.getD ReleaseChannel.None)) ::
            m.asyncLog } := by
  simp [UpdateManager.launchUpdateCheck, hq, hreplace, hchannel, hclient, logAsync,
    StateManager.SetUpdateCheck, StateManager.SetUpdateStatus]

/-- The launch step, when one of the four conditions fails. -/
theorem launchUpdateCheck_skips {V : Type} (S : Settings) (m : UpdateManager V)
    (h : ¬ (m.m_IsUpdateQueued = true ∧ m.CanReplaceUpdateCheckState = true ∧
      S.m_ReleaseChannel.getD ReleaseChannel.None ≠ ReleaseChannel.None ∧
      S.GetHTTPClient ≠ none)) :
    UpdateManager.launchUpdateCheck S m = m := by
  unfold UpdateManager.launchUpdateCheck
  by_cases hq : m.m_IsUpdateQueued = true
  · by_cases hr : m.CanReplaceUpdateCheckState = true
    · cases hc : S.GetHTTPClient with
      | none => simp
      | some c =>
        by_cases hch : S.m_ReleaseChannel.getD ReleaseChannel.None = ReleaseChannel.None
        · simp [hch]
        · exact absurd ⟨hq, hr, hch, by simp [hc]⟩ h
    · simp [hr]
  · simp [hq]

/-- The call `BeginSelfUpdate()` leaves the check union alone and starts no version check. -/
theorem BeginSelfUpdate_check_frame {V : Type} (P : Platform V) (S : Settings) (now : Nat)
    (u : AvailableUpdate V) (m : UpdateManager V) :
    (u.BeginSelfUpdate P S now m).2.m_State.m_UpdateCheckVariant =
      m.m_State.m_UpdateCheckVariant ∧
    (u.BeginSelfUpdate P S now m).2.asyncLog.filter AsyncTask.isCheck =
      m.asyncLog.filter AsyncTask.isCheck := by
  unfold AvailableUpdate.BeginSelfUpdate
  by_cases hc : u.CanSelfUpdate P = true
  · cases hcl : S.GetHTTPClient with
    | none => simp [hc]
    | some client =>
      by_cases hi : P.IsInstalled = true
      · by_cases hci : P.CanInstallUpdate u.m_BuildInfo = true <;>
          simp [hc, hi, hci, StateManager.Set, StateManager.Clear, StateManager.SetUpdateStatus]
      · cases hp : u.m_Portable <;> cases hu : u.m_Updater <;>
          simp [hc, hi, StateManager.Set, StateManager.SetUpdateStatus, DownloadBuild,
            logAsync, AsyncTask.isCheck]
  · simp [hc]

/-- The end of a pipeline task leaves the check union and the record of started tasks
alone. -/
theorem pipelineTaskFinishes_check_frame {V : Type} (T : ResultType)
    (result : Except Exn T.Value) (m : UpdateManager V) :
    (m.pipelineTaskFinishes T result).m_State.m_UpdateCheckVariant =
      m.m_State.m_UpdateCheckVariant ∧
    (m.pipelineTaskFinishes T result).asyncLog = m.asyncLog := by
  unfold UpdateManager.pipelineTaskFinishes
  split <;> exact ⟨rfl, rfl⟩

/-- A check union that can be replaced holds no running task. -/
theorem not_running_of_CanReplace {V : Type} (m : UpdateManager V)
    (h : m.CanReplaceUpdateCheckState = true) : m.checkRunning = false := by
  unfold UpdateManager.CanReplaceUpdateCheckState at h
  unfold UpdateManager.checkRunning
  cases hc : m.m_State.m_UpdateCheckVariant with
  | availableUpdate u => rfl
  | future f =>
    cases f with
    | pending t => simp [hc, Future.valid, is_future_ready] at h
    | invalid => rfl
    | ready r => rfl

/-- The resolve step starts no task: without a running task before, there is none after. -/
theorem resolveUpdateCheck_not_running {V : Type} [LinearOrder V] (P : Platform V)
    (S : Settings) (m : UpdateManager V) (h : m.checkRunning = false) :
    (UpdateManager.resolveUpdateCheck P S m).checkRunning = false := by
  unfold UpdateManager.checkRunning at h ⊢
  unfold UpdateManager.resolveUpdateCheck
  cases hc : m.m_State.m_UpdateCheckVariant with
  | availableUpdate u => simp [hc]
  | future f =>
    rcases f with _ | t | (e | bi)
    · cases S.GetHTTPClient <;> simp [is_future_ready, StateManager.ClearUpdateCheck, hc]
    · simp [hc] at h
    · cases S.GetHTTPClient <;>
        simp [is_future_ready, Future.get?, StateManager.ClearUpdateCheck]
    · cases S.GetHTTPClient with
      | none => simp [StateManager.ClearUpdateCheck]
      | some c =>
        by_cases hv : (AvailableUpdate.new P c bi).m_BuildInfo.m_Version ≤ P.VERSION <;>
          simp [is_future_ready, Future.get?, hv, StateManager.SetUpdateCheck]

/-- The resolve step on a running task: with a transport client it waits on; without one it
destroys the future. -/
theorem resolveUpdateCheck_running {V : Type} [LinearOrder V] (P : Platform V)
    (S : Settings) (m : UpdateManager V) (h : m.checkRunning = true) :
    (UpdateManager.resolveUpdateCheck P S m).checkRunning = S.GetHTTPClient.isSome := by
  unfold UpdateManager.checkRunning at h ⊢
  unfold UpdateManager.resolveUpdateCheck
  cases hc : m.m_State.m_UpdateCheckVariant with
  | availableUpdate u => simp [hc] at h
  | future f =>
    rcases f with _ | t | (e | bi)
    · simp [hc] at h
    · cases S.GetHTTPClient <;> simp [is_future_ready, StateManager.ClearUpdateCheck, hc]
    · simp [hc] at h
    · simp [hc] at h

/-- Whether a task is running is read off the check union. -/
theorem checkRunning_congr {V : Type} (m m2 : UpdateManager V)
    (h : m.m_State.m_UpdateCheckVariant = m2.m_State.m_UpdateCheckVariant) :
    m.checkRunning = m2.checkRunning := by
  unfold UpdateManager.checkRunning
  rw [h]

/-- Every action keeps the count: the version check tasks started are those that have ended
and, if the check union holds a running task, that one. -/
theorem step_keeps_count {V : Type} [LinearOrder V] (P : Platform V) (w : World V)
    (action : Action V)
    (h : w.manager.checksStarted =
      w.checksEnded + (if w.manager.checkRunning = true then 1 else 0)) :
    (w.step P action).manager.checksStarted =
      (w.step P action).checksEnded +
        (if (w.step P action).manager.checkRunning = true then 1 else 0) := by
  obtain ⟨m, ended⟩ := w
  simp only at h
  cases action with
  | tick S =>
    obtain ⟨hu1, _, hu3, _⟩ := Update_after_check_half P S m
    have hrun : (UpdateManager.Update P S m).checkRunning =
        (UpdateManager.resolveUpdateCheck P S (UpdateManager.launchUpdateCheck S m)).checkRunning :=
      checkRunning_congr _ _ hu1
    have hstarted : (UpdateManager.Update P S m).checksStarted =
        (UpdateManager.launchUpdateCheck S m).checksStarted := by
      unfold UpdateManager.checksStarted
      rw [hu3]
    simp only [World.step, hrun, hstarted]
    by_cases hcond : m.m_IsUpdateQueued = true ∧ m.CanReplaceUpdateCheckState = true ∧
        S.m_ReleaseChannel.getD ReleaseChannel.None ≠ ReleaseChannel.None ∧
        S.GetHTTPClient ≠ none
    · obtain ⟨hq, hr, hch, hc⟩ := hcond
      obtain ⟨client, hc⟩ := Option.ne_none_iff_exists'.mp hc
      have hl := launchUpdateCheck_launches S m client hq hr hch hc
      have h0 := not_running_of_CanReplace m hr
      have h1 : (UpdateManager.launchUpdateCheck S m).checkRunning = true := by
        rw [hl]; rfl
      have h2 := resolveUpdateCheck_running P S _ h1
      rw [hc] at h2
      have h3 : (UpdateManager.launchUpdateCheck S m).checksStarted = m.checksStarted + 1 := by
        rw [hl]
        simp [UpdateManager.checksStarted, AsyncTask.isCheck]
      rw [h0] at h
      simp only [h1, h2, h3] at *
      simp at h ⊢
      omega
    · rw [launchUpdateCheck_skips S m hcond]
      by_cases hr : m.checkRunning = true
      · have h2 := resolveUpdateCheck_running P S m hr
        cases hc : S.GetHTTPClient with
        | none =>
          rw [hc] at h2
          simp only [hr, h2] at *
          simp at h ⊢
          omega
        | some c =>
          rw [hc] at h2
          simp only [hr, h2] at *
          simp at h ⊢
          omega
      · have hr0 : m.checkRunning = false := by simpa using hr
        have h2 := resolveUpdateCheck_not_running P S m hr0
        simp only [hr0, h2] at *
        simp at h ⊢
        omega
  | queueUpdateCheck =>
    simpa [World.step, UpdateManager.QueueUpdateCheck, UpdateManager.checksStarted,
      UpdateManager.checkRunning] using h
  | beginSelfUpdate S now =>
    rcases hu : m.GetAvailableUpdate with _ | u
    · simpa [World.step, hu] using h
    · obtain ⟨hb1, hb2⟩ := BeginSelfUpdate_check_frame P S now u m
      have hrun := checkRunning_congr _ _ hb1
      simp only [World.step, hu, UpdateManager.checksStarted, hb2, hrun]
      simpa [UpdateManager.checksStarted] using h
  | checkTaskEnds result =>
    simp only [World.step]
    by_cases hr : m.checkRunning = true
    · simp only [hr, if_true] at h ⊢
      have hfin : (m.checkTaskFinishes result).checkRunning = false ∧
          (m.checkTaskFinishes result).checksStarted = m.checksStarted := by
        unfold UpdateManager.checkRunning at hr
        unfold UpdateManager.checkTaskFinishes UpdateManager.checkRunning
          UpdateManager.checksStarted
        cases hc : m.m_State.m_UpdateCheckVariant with
        | availableUpdate u => simp [hc] at hr
        | future f =>
          rcases f with _ | t | r
          · simp [hc] at hr
          · simp
          · simp [hc] at hr
      rw [hfin.1, hfin.2, h]
      simp
    · simpa [hr] using h
  | pipelineTaskEnds T result =>
    obtain ⟨hp1, hp2⟩ := pipelineTaskFinishes_check_frame T result m
    have hrun := checkRunning_congr _ _ hp1
    simp only [World.step, UpdateManager.checksStarted, hp2, hrun]
    simpa [UpdateManager.checksStarted] using h

/-- In every state reached from construction, the version check tasks started are those that
have ended and, if the check union holds a running task, that one. -/
theorem run_keeps_count {V : Type} [LinearOrder V] (P : Platform V)
    (actions : List (Action V)) :
    ∀ w : World V,
      w.manager.checksStarted =
        w.checksEnded + (if w.manager.checkRunning = true then 1 else 0) →
      (w.run P actions).manager.checksStarted =
        (w.run P actions).checksEnded +
          (if (w.run P actions).manager.checkRunning = true then 1 else 0) := by
  induction actions with
  | nil => intro w h; exact h
  | cons action actions ih =>
    intro w h
    exact ih (w.step P action) (step_keeps_count P w action h)

/-- What a tick does about launching a version check: it launches exactly when the four
conditions hold, a launch stores the new task, publishes `Checking` and clears the queued flag,
and nothing is launched while the check union holds a task that is not ready. -/
theorem tick_launch_facts {V : Type} [LinearOrder V] (P : Platform V) (S : Settings)
    (m : UpdateManager V) :
    ((UpdateManager.Update P S m).asyncLog.filter AsyncTask.isCheck ≠
        m.asyncLog.filter AsyncTask.isCheck ↔
      (m.m_IsUpdateQueued = true ∧ m.CanReplaceUpdateCheckState = true ∧
        S.m_ReleaseChannel.getD ReleaseChannel.None ≠ ReleaseChannel.None ∧
        S.GetHTTPClient ≠ none)) ∧
    (∀ client : HTTPClient, m.m_IsUpdateQueued = true → m.CanReplaceUpdateCheckState = true →
      S.m_ReleaseChannel.getD ReleaseChannel.None ≠ ReleaseChannel.None →
      S.GetHTTPClient = some client →
      (UpdateManager.launchUpdateCheck S m).m_State.m_UpdateCheckVariant =
        .future (.pending (CheckTask.mk client (S.m_ReleaseChannel.getD ReleaseChannel.None))) ∧
      (UpdateManager.launchUpdateCheck S m).m_State.m_UpdateStatus =
        (UpdateStatus.Checking, "Checking for updates...") ∧
      (UpdateManager.launchUpdateCheck S m).m_IsUpdateQueued = false ∧
      (UpdateManager.launchUpdateCheck S m).asyncLog =
        AsyncTask.check (CheckTask.mk client (S.m_ReleaseChannel.getD ReleaseChannel.None)) ::
          m.asyncLog ∧
      (UpdateManager.Update P S m).m_State.m_UpdateCheckVariant =
        .future (.pending (CheckTask.mk client (S.m_ReleaseChannel.getD ReleaseChannel.None))) ∧
      (UpdateManager.Update P S m).m_IsUpdateQueued = false ∧
      (UpdateManager.Update P S m).asyncLog.filter AsyncTask.isCheck =
        AsyncTask.check (CheckTask.mk client (S.m_ReleaseChannel.getD ReleaseChannel.None)) ::
          m.asyncLog.filter AsyncTask.isCheck ∧
      ((UpdateManager.Update P S m).m_State.m_Variant = m.m_State.m_Variant →
        (UpdateManager.Update P S m).m_State.m_UpdateStatus =
          (UpdateStatus.Checking, "Checking for updates..."))) ∧
    (∀ t : CheckTask, m.m_State.m_UpdateCheckVariant = .future (.pending t) →
      UpdateManager.launchUpdateCheck S m = m ∧
      (UpdateManager.Update P S m).asyncLog.filter AsyncTask.isCheck =
        m.asyncLog.filter AsyncTask.isCheck) := by
  obtain ⟨hu1, hu2, hu3, hu4⟩ := Update_after_check_half P S m
  have launched : ∀ client : HTTPClient, m.m_IsUpdateQueued = true →
      m.CanReplaceUpdateCheckState = true →
      S.m_ReleaseChannel.getD ReleaseChannel.None ≠ ReleaseChannel.None →
      S.GetHTTPClient = some client →
      (UpdateManager.resolveUpdateCheck P S (UpdateManager.launchUpdateCheck S m)).m_State =
        (UpdateManager.launchUpdateCheck S m).m_State := by
    intro client hq hr hch hc
    rw [launchUpdateCheck_launches S m client hq hr hch hc]
    simp [UpdateManager.resolveUpdateCheck, hc, is_future_ready]
  refine ⟨⟨?_, ?_⟩, ?_, ?_⟩
  · intro hne
    by_contra hcond
    rw [hu3, launchUpdateCheck_skips S m hcond] at hne
    exact hne rfl
  · rintro ⟨hq, hr, hch, hc⟩
    obtain ⟨client, hc⟩ := Option.ne_none_iff_exists'.mp hc
    rw [hu3, launchUpdateCheck_launches S m client hq hr hch hc]
    simp [AsyncTask.isCheck]
  · intro client hq hr hch hc
    have hl := launchUpdateCheck_launches S m client hq hr hch hc
    have hres := launched client hq hr hch hc
    refine ⟨by rw [hl], by rw [hl], by rw [hl], by rw [hl], ?_, ?_, ?_, ?_⟩
    · rw [hu1, hres, hl]
    · rw [hu2, hl]
    · rw [hu3, hl]
      simp [AsyncTask.isCheck]
    · intro h
      rw [hu4 h, hres, hl]
  · intro t ht
    have hl := launchUpdateCheck_pending S m t ht
    exact ⟨hl, by rw [hu3, hl]⟩

/-- C7 as stated fails: in a run from construction a downloaded build is stored and a check
is queued; the tick launches the check, which publishes `Checking`, and goes on to start the
update tool download, so the status after the tick is `UpdateToolDownloading`. -/
theorem C7_launch_status_overwritten :
    Example.downloadedAndQueued.m_IsUpdateQueued = true ∧
    Example.downloadedAndQueued.CanReplaceUpdateCheckState = true ∧
    Example.online.m_ReleaseChannel = some ReleaseChannel.Public ∧
    Example.online.GetHTTPClient = some Example.client ∧
    (UpdateManager.Update Example.platform Example.online Example.downloadedAndQueued).asyncLog =
      AsyncTask.downloadUpdateTool
          (DownloadUpdateToolTask.mk Example.client (Example.nativeVariant "updater64.zip")
            (portableUpdateArgs Example.platform Example.downloaded.m_ExtractedLocation)) ::
        AsyncTask.check (CheckTask.mk Example.client ReleaseChannel.Public) ::
          Example.downloadedAndQueued.asyncLog ∧
    (UpdateManager.Update Example.platform Example.online
      Example.downloadedAndQueued).m_State.m_UpdateStatus.1 =
        UpdateStatus.UpdateToolDownloading ∧
    (UpdateManager.Update Example.platform Example.online
      Example.downloadedAndQueued).m_State.m_UpdateStatus.1 ≠ UpdateStatus.Checking := by
  refine ⟨rfl, rfl, rfl, rfl, rfl, by decide, by decide⟩

/-- C7, amended: a tick launches a new version-check task exactly when a check is queued,
`CanReplaceUpdateCheckState()` is true, the release channel is not `None` and a transport
client is available. When it launches, the check state becomes the new in-flight task and the
queued flag is cleared, both still so at the end of the tick, and the launch publishes
`Checking`, which is the status after the tick unless the pipeline union changed in the same
tick. While the check state holds a task that is not ready, no tick launches a version check.
In every state reached from construction by ticks under any settings, `QueueUpdateCheck()`,
`BeginSelfUpdate()` and the ends of tasks, at most one version check task is in flight, one is
in flight exactly when the check state holds a task that is not ready, and a tick launches a
check only when none is in flight. -/
theorem C7_launch_exactly_when {V : Type} [LinearOrder V] (P : Platform V) (S : Settings)
    (m : UpdateManager V) (actions : List (Action V)) :
    ((UpdateManager.Update P S m).asyncLog.filter AsyncTask.isCheck ≠
        m.asyncLog.filter AsyncTask.isCheck ↔
      (m.m_IsUpdateQueued = true ∧ m.CanReplaceUpdateCheckState = true ∧
        S.m_ReleaseChannel.getD ReleaseChannel.None ≠ ReleaseChannel.None ∧
        S.GetHTTPClient ≠ none)) ∧
    (∀ client : HTTPClient, m.m_IsUpdateQueued = true → m.CanReplaceUpdateCheckState = true →
      S.m_ReleaseChannel.getD ReleaseChannel.None ≠ ReleaseChannel.None →
      S.GetHTTPClient = some client →
      (UpdateManager.launchUpdateCheck S m).m_State.m_UpdateCheckVariant =
        .future (.pending (CheckTask.mk client (S.m_ReleaseChannel.getD ReleaseChannel.None))) ∧
      (UpdateManager.launchUpdateCheck S m).m_State.m_UpdateStatus =
        (UpdateStatus.Checking, "Checking for updates...") ∧
      (UpdateManager.launchUpdateCheck S m).m_IsUpdateQueued = false ∧
      (UpdateManager.launchUpdateCheck S m).asyncLog =
        AsyncTask.check (CheckTask.mk client (S.m_ReleaseChannel.getD ReleaseChannel.None)) ::
          m.asyncLog ∧
      (UpdateManager.Update P S m).m_State.m_UpdateCheckVariant =
        .future (.pending (CheckTask.mk client (S.m_ReleaseChannel.getD ReleaseChannel.None))) ∧
      (UpdateManager.Update P S m).m_IsUpdateQueued = false ∧
      (UpdateManager.Update P S m).asyncLog.filter AsyncTask.isCheck =
        AsyncTask.check (CheckTask.mk client (S.m_ReleaseChannel.getD ReleaseChannel.None)) ::
          m.asyncLog.filter AsyncTask.isCheck ∧
      ((UpdateManager.Update P S m).m_State.m_Variant = m.m_State.m_Variant →
        (UpdateManager.Update P S m).m_State.m_UpdateStatus =
          (UpdateStatus.Checking, "Checking for updates..."))) ∧
    (∀ t : CheckTask, m.m_State.m_UpdateCheckVariant = .future (.pending t) →
      UpdateManager.launchUpdateCheck S m = m ∧
      (UpdateManager.Update P S m).asyncLog.filter AsyncTask.isCheck =
        m.asyncLog.filter AsyncTask.isCheck) ∧
    ((World.initial P).run P actions).inFlight ≤ 1 ∧
    (((World.initial P).run P actions).inFlight = 1 ↔
      ((World.initial P).run P actions).manager.checkRunning = true) ∧
    (∀ S2 : Settings,
      (UpdateManager.Update P S2 ((World.initial P).run P actions).manager).checksStarted ≠
          ((World.initial P).run P actions).manager.checksStarted →
      ((World.initial P).run P actions).inFlight = 0) := by
  obtain ⟨hA, hB, hC⟩ := tick_launch_facts P S m
  have hcount := run_keeps_count P actions (World.initial P) (by
    simp [World.initial, UpdateManager.new, UpdateManager.checksStarted,
      UpdateManager.checkRunning])
  refine ⟨hA, hB, hC, ?_, ?_, ?_⟩
  · unfold World.inFlight
    split at hcount <;> omega
  · unfold World.inFlight
    constructor
    · intro h1
      by_contra hr
      rw [if_neg hr] at hcount
      omega
    · intro hr
      rw [if_pos hr] at hcount
      omega
  · intro S2 hne
    have hlist : (UpdateManager.Update P S2
          ((World.initial P).run P actions).manager).asyncLog.filter AsyncTask.isCheck ≠
        ((World.initial P).run P actions).manager.asyncLog.filter AsyncTask.isCheck := by
      intro heq
      apply hne
      unfold UpdateManager.checksStarted
      rw [heq]
    obtain ⟨_, hreplace, _, _⟩ :=
      (tick_launch_facts P S2 ((World.initial P).run P actions).manager).1.mp hlist
    have hr := not_running_of_CanReplace _ hreplace
    rw [hr] at hcount
    unfold World.inFlight
    simp at hcount
    omega

/-- C7, amended, at concrete inputs: the first tick of a freshly constructed manager, with a
client and the public channel, launches the check; and when the client goes away while that
check runs and comes back after another check has been queued, the second check is launched
with the first one ended and is the only one in flight. -/
theorem C7_launch_exactly_when_witness :
    (UpdateManager.Update Example.platform Example.online Example.fresh
      ).m_State.m_UpdateCheckVariant =
        .future (.pending (CheckTask.mk Example.client ReleaseChannel.Public)) ∧
    (UpdateManager.Update Example.platform Example.online Example.fresh
      ).m_State.m_UpdateStatus = (UpdateStatus.Checking, "Checking for updates...") ∧
    (UpdateManager.Update Example.platform Example.online Example.fresh
      ).m_IsUpdateQueued = false ∧
    ((World.initial Example.platform).run Example.platform
      Example.clientGoesAndReturns).manager.checksStarted = 2 ∧
    ((World.initial Example.platform).run Example.platform
      Example.clientGoesAndReturns).checksEnded = 1 ∧
    ((World.initial Example.platform).run Example.platform
      Example.clientGoesAndReturns).inFlight ≤ 1 :=
  have h := C7_launch_exactly_when Example.platform Example.online Example.fresh
    Example.clientGoesAndReturns
  have hB := h.2.1 Example.client rfl rfl (by decide) rfl
  ⟨hB.2.2.2.2.1, hB.2.2.2.2.2.2.2 rfl, hB.2.2.2.2.2.1, by decide, by decide, h.2.2.2.1⟩

/-- C1 as stated fails, in two ways, on states reached from construction with a transport
client available. With the check ready with version 8, above the local version 5, and a
downloaded build in the pipeline, the tick stores the `AvailableUpdate` but goes on to start
the update tool download, and the status it leaves is `UpdateToolDownloading`. With the check
ready and another check queued, the tick launches the new check first: the ready `BuildInfo`
is dropped, no `AvailableUpdate` is stored and the status is `Checking`. -/
theorem C1_ready_check_overwritten_or_dropped :
    (Example.checkFoundAfterDownload.m_State.m_UpdateCheckVariant =
        .future (.ready (.ok (Example.manifest 8))) ∧
      Example.online.GetHTTPClient = some Example.client ∧
      Example.platform.VERSION < (Example.manifest 8).m_Version ∧
      (UpdateManager.Update Example.platform Example.online
        Example.checkFoundAfterDownload).m_State.m_UpdateStatus.1 =
          UpdateStatus.UpdateToolDownloading ∧
      (UpdateManager.Update Example.platform Example.online
        Example.checkFoundAfterDownload).m_State.m_UpdateStatus.1 ≠
          UpdateStatus.UpdateAvailable) ∧
    (Example.checkFoundThenQueued.m_State.m_UpdateCheckVariant =
        .future (.ready (.ok (Example.manifest 7))) ∧
      (UpdateManager.Update Example.platform Example.online
        Example.checkFoundThenQueued).m_State.m_UpdateCheckVariant =
          .future (.pending (CheckTask.mk Example.client ReleaseChannel.Public)) ∧
      (UpdateManager.Update Example.platform Example.online
        Example.checkFoundThenQueued).GetAvailableUpdate.isNone = true ∧
      (UpdateManager.Update Example.platform Example.online
        Example.checkFoundThenQueued).m_State.m_UpdateStatus.1 = UpdateStatus.Checking) := by
  refine ⟨⟨rfl, rfl, by decide, by decide, by decide⟩, ⟨rfl, rfl, rfl, by decide⟩⟩

/-- C1, amended: when a tick starts with the in-flight version check ready with a decoded
`BuildInfo`, a transport client is available and the tick launches no new check (none is
queued, or the release channel is `None`), then after the tick the check state is the
`AvailableUpdate` built from that `BuildInfo`; the check step of the tick publishes `UpToDate`
if the fetched version is at most `VERSION` and `UpdateAvailable` if it is greater, and that
is the published status after the tick unless the pipeline union changed in the same tick. -/
theorem C1_ready_check_becomes_AvailableUpdate {V : Type} [LinearOrder V] (P : Platform V)
    (S : Settings) (m : UpdateManager V) (client : HTTPClient) (buildInfo : BuildInfo V)
    (hready : m.m_State.m_UpdateCheckVariant = .future (.ready (.ok buildInfo)))
    (hclient : S.GetHTTPClient = some client)
    (hnolaunch : m.m_IsUpdateQueued = false ∨
      S.m_ReleaseChannel.getD ReleaseChannel.None = ReleaseChannel.None) :
    (UpdateManager.Update P S m).m_State.m_UpdateCheckVariant =
      .availableUpdate (AvailableUpdate.new P client buildInfo) ∧
    (UpdateManager.Update P S m).GetAvailableUpdate =
      some (AvailableUpdate.new P client buildInfo) ∧
    (AvailableUpdate.new P client buildInfo).m_BuildInfo = buildInfo ∧
    (buildInfo.m_Version ≤ P.VERSION →
      (UpdateManager.resolveUpdateCheck P S
        (UpdateManager.launchUpdateCheck S m)).m_State.m_UpdateStatus.1 = UpdateStatus.UpToDate ∧
      ((UpdateManager.Update P S m).m_State.m_Variant = m.m_State.m_Variant →
        (UpdateManager.Update P S m).m_State.m_UpdateStatus.1 = UpdateStatus.UpToDate)) ∧
    (P.VERSION < buildInfo.m_Version →
      (UpdateManager.resolveUpdateCheck P S
        (UpdateManager.launchUpdateCheck S m)).m_State.m_UpdateStatus.1 =
          UpdateStatus.UpdateAvailable ∧
      ((UpdateManager.Update P S m).m_State.m_Variant = m.m_State.m_Variant →
        (UpdateManager.Update P S m).m_State.m_UpdateStatus.1 = UpdateStatus.UpdateAvailable)) ∧
    (UpdateManager.Update P S m).m_IsUpdateQueued = m.m_IsUpdateQueued ∧
    (UpdateManager.Update P S m).asyncLog.filter AsyncTask.isCheck =
      m.asyncLog.filter AsyncTask.isCheck := by
  have hskip : UpdateManager.launchUpdateCheck S m = m := by
    apply launchUpdateCheck_skips
    rintro ⟨hq, _, hch, _⟩
    rcases hnolaunch with h | h
    · rw [h] at hq; exact Bool.noConfusion hq
    · exact hch h
  have hstep : (UpdateManager.resolveUpdateCheck P S m).m_State.m_UpdateCheckVariant =
        .availableUpdate (AvailableUpdate.new P client buildInfo) ∧
      (UpdateManager.resolveUpdateCheck P S m).m_State.m_UpdateStatus.1 =
        if buildInfo.m_Version ≤ P.VERSION then UpdateStatus.UpToDate
        else UpdateStatus.UpdateAvailable := by
    unfold UpdateManager.resolveUpdateCheck
    rw [hready]
    by_cases hv : buildInfo.m_Version ≤ P.VERSION <;>
      simp [hclient, is_future_ready, Future.get?, AvailableUpdate.new, hv,
        StateManager.SetUpdateCheck, StateManager.SetUpdateStatus]
  obtain ⟨hcheck, hstatus⟩ := hstep
  obtain ⟨hu1, hu2, hu3, hu4⟩ := Update_after_check_half P S m
  rw [hskip] at hu1 hu2 hu3 hu4
  rw [hskip]
  have hfinal : (UpdateManager.Update P S m).m_State.m_UpdateCheckVariant =
      .availableUpdate (AvailableUpdate.new P client buildInfo) := by rw [hu1, hcheck]
  refine ⟨hfinal, ?_, rfl, ?_, ?_, hu2, hu3⟩
  · simp [UpdateManager.GetAvailableUpdate, hfinal]
  · intro hle
    refine ⟨by rw [hstatus, if_pos hle], ?_⟩
    intro h
    rw [hu4 h, hstatus, if_pos hle]
  · intro hlt
    refine ⟨by rw [hstatus, if_neg (not_le.mpr hlt)], ?_⟩
    intro h
    rw [hu4 h, hstatus, if_neg (not_le.mpr hlt)]

/-- C1, amended, at a concrete input: version 7 is fetched by a program of version 5, nothing
is queued and the pipeline is empty. -/
theorem C1_ready_check_becomes_AvailableUpdate_witness :
    (UpdateManager.Update Example.platform Example.online (Example.checkReady 7)
      ).m_State.m_UpdateCheckVariant =
        .availableUpdate (AvailableUpdate.new Example.platform Example.client (Example.manifest 7)) ∧
    (UpdateManager.Update Example.platform Example.online (Example.checkReady 7)
      ).m_State.m_UpdateStatus.1 = UpdateStatus.UpdateAvailable :=
  have h := C1_ready_check_becomes_AvailableUpdate Example.platform Example.online
    (Example.checkReady 7) Example.client (Example.manifest 7) rfl rfl (Or.inl rfl)
  ⟨h.1, (h.2.2.2.2.1 (by decide)).2 rfl⟩

/-! ## Update tool acquisition -/

/-- C11 as stated fails. In a run of an installed copy the current `AvailableUpdate` has a
native updater variant but no native portable variant and the pipeline holds
`NeedsUpdateTool`; the tick does not fail: it starts the update tool download and publishes
`UpdateToolDownloading`. -/
theorem C11_missing_portable_still_downloads_tool :
    Example.needsToolWithoutPortable.m_State.m_Variant =
      .installResult (.NeedsUpdateTool "--update-type MSIX") ∧
    Example.needsToolWithoutPortable.GetAvailableUpdate.map (fun u => u.m_Portable) = some none ∧
    (UpdateManager.Update Example.installedPlatform Example.online
      Example.needsToolWithoutPortable).m_State.m_Variant =
        .futureDownloadedUpdateTool (.pending
          { clientPtr := Example.client, updater := Example.nativeVariant "updater64.zip",
            args := "--update-type MSIX" }) ∧
    (UpdateManager.Update Example.installedPlatform Example.online
      Example.needsToolWithoutPortable).m_State.m_UpdateStatus.1 =
        UpdateStatus.UpdateToolDownloading ∧
    (UpdateManager.Update Example.installedPlatform Example.online
      Example.needsToolWithoutPortable).asyncLog.head? =
        some (AsyncTask.downloadUpdateTool
          { clientPtr := Example.client, updater := Example.nativeVariant "updater64.zip",
            args := "--update-type MSIX" }) := by
  refine ⟨rfl, rfl, rfl, rfl, rfl⟩

/-- C11, amended: when a tick reaches the pipeline with an `InstallResult` equal to
`NeedsUpdateTool{args}`, the native updater variant is taken from the current
`AvailableUpdate`; if there is no current `AvailableUpdate`, or its native updater variant is
missing, or no transport client is available, the tick fails at once: the pipeline is cleared,
the status becomes `UpdateFailed` and no task is started. Otherwise the update tool download is
started with that updater variant and `args`, whether or not a native portable variant is
resolved. When the pipeline holds a `DownloadedBuild`, the updater variant stored in it is
used and the current `AvailableUpdate` is not consulted: the tick fails only for want of a
transport client and otherwise starts the update tool download. -/
theorem C11_update_tool_acquisition {V : Type} [LinearOrder V] (P : Platform V) (S : Settings)
    (m0 m : UpdateManager V)
    (hm : m = UpdateManager.resolveUpdateCheck P S (UpdateManager.launchUpdateCheck S m0)) :
    (∀ args : String, m.m_State.m_Variant = .installResult (.NeedsUpdateTool args) →
      ((m.GetAvailableUpdate = none ∨ (∃ u, m.GetAvailableUpdate = some u ∧ u.m_Updater = none) ∨
          S.GetHTTPClient = none) →
        (UpdateManager.Update P S m0).m_State.m_Variant = State_t.monostate ∧
        (UpdateManager.Update P S m0).m_State.m_UpdateStatus.1 = UpdateStatus.UpdateFailed ∧
        (UpdateManager.Update P S m0).asyncLog = m.asyncLog) ∧
      (∀ (u : AvailableUpdate V) (updater : BuildVariant) (client : HTTPClient),
        m.GetAvailableUpdate = some u → u.m_Updater = some updater →
        S.GetHTTPClient = some client →
        (UpdateManager.Update P S m0).m_State.m_Variant =
          .futureDownloadedUpdateTool (DownloadUpdateTool client updater args) ∧
        (UpdateManager.Update P S m0).m_State.m_UpdateStatus.1 =
          UpdateStatus.UpdateToolDownloading ∧
        (UpdateManager.Update P S m0).asyncLog =
          AsyncTask.downloadUpdateTool (DownloadUpdateToolTask.mk client updater args) ::
            m.asyncLog)) ∧
    (∀ db : DownloadedBuild, m.m_State.m_Variant = .downloadedBuild db →
      (S.GetHTTPClient = none →
        (UpdateManager.Update P S m0).m_State.m_Variant = State_t.monostate ∧
        (UpdateManager.Update P S m0).m_State.m_UpdateStatus.1 = UpdateStatus.UpdateFailed ∧
        (UpdateManager.Update P S m0).asyncLog = m.asyncLog) ∧
      (∀ client : HTTPClient, S.GetHTTPClient = some client →
        (UpdateManager.Update P S m0).m_State.m_Variant =
          .futureDownloadedUpdateTool (DownloadUpdateTool client db.m_UpdaterVariant
            ("--update-type Portable --source-path " ++ P.fmtPath db.m_ExtractedLocation ++
              " --dest-path " ++ P.fmtPath P.GetCurrentExeDir)) ∧
        (UpdateManager.Update P S m0).m_State.m_UpdateStatus.1 =
          UpdateStatus.UpdateToolDownloading ∧
        (UpdateManager.Update P S m0).asyncLog =
          AsyncTask.downloadUpdateTool (DownloadUpdateToolTask.mk client db.m_UpdaterVariant
            ("--update-type Portable --source-path " ++ P.fmtPath db.m_ExtractedLocation ++
              " --dest-path " ++ P.fmtPath P.GetCurrentExeDir)) :: m.asyncLog)) := by
  have hU : UpdateManager.Update P S m0 =
      { UpdateManager.advancePipeline P S m with
        m_State := UpdateManager.pollPipeline (UpdateManager.advancePipeline P S m).m_State } := by
    subst hm; rfl
  rw [hU]
  clear hU hm
  refine ⟨?_, ?_⟩
  · intro args hv
    refine ⟨?_, ?_⟩
    · rintro (h | ⟨u, h, hu⟩ | h)
      · simp [UpdateManager.advancePipeline, hv, h, UpdateManager.pollPipeline,
          StateManager.Update, StateManager.UpdateVariant, get_if_future, StateManager.Clear,
          StateManager.Set, StateManager.SetUpdateStatus]
      · simp [UpdateManager.advancePipeline, hv, h, hu, UpdateManager.pollPipeline,
          StateManager.Update, StateManager.UpdateVariant, get_if_future, StateManager.Clear,
          StateManager.Set, StateManager.SetUpdateStatus]
      · cases hav : m.GetAvailableUpdate with
        | none =>
          simp [UpdateManager.advancePipeline, hv, hav, UpdateManager.pollPipeline,
            StateManager.Update, StateManager.UpdateVariant, get_if_future, StateManager.Clear,
            StateManager.Set, StateManager.SetUpdateStatus]
        | some u =>
          cases hu : u.m_Updater <;>
            simp [UpdateManager.advancePipeline, hv, hav, hu, h, UpdateManager.pollPipeline,
              StateManager.Update, StateManager.UpdateVariant, get_if_future, StateManager.Clear,
              StateManager.Set, StateManager.SetUpdateStatus]
    · intro u updater client hav hu hc
      simp [UpdateManager.advancePipeline, hv, hav, hu, hc, UpdateManager.pollPipeline,
        StateManager.Update, StateManager.UpdateVariant, get_if_future, is_future_ready,
        StateManager.Set, StateManager.SetUpdateStatus, DownloadUpdateTool, logAsync]
  · intro db hv
    refine ⟨?_, ?_⟩
    · intro h
      simp [UpdateManager.advancePipeline, hv, h, UpdateManager.pollPipeline,
        StateManager.Update, StateManager.UpdateVariant, get_if_future, StateManager.Clear,
        StateManager.Set, StateManager.SetUpdateStatus]
    · intro client hc
      simp [UpdateManager.advancePipeline, hv, hc, UpdateManager.pollPipeline,
        StateManager.Update, StateManager.UpdateVariant, get_if_future, is_future_ready,
        StateManager.Set, StateManager.SetUpdateStatus, DownloadUpdateTool, logAsync]

/-- C11, amended, at a concrete input: the platform updater answered `NeedsUpdateTool` and the
current `AvailableUpdate` has no native updater variant. -/
theorem C11_update_tool_acquisition_witness :
    (UpdateManager.Update Example.installedPlatform Example.online
      Example.needsToolWithoutUpdater).m_State.m_Variant = State_t.monostate ∧
    (UpdateManager.Update Example.installedPlatform Example.online
      Example.needsToolWithoutUpdater).m_State.m_UpdateStatus.1 = UpdateStatus.UpdateFailed ∧
    (UpdateManager.Update Example.installedPlatform Example.online
      Example.needsToolWithoutUpdater).asyncLog = Example.needsToolWithoutUpdater.asyncLog :=
  ((C11_update_tool_acquisition Example.installedPlatform Example.online
    Example.needsToolWithoutUpdater Example.needsToolWithoutUpdater rfl).1
      "--update-type MSIX" rfl).1
    (Or.inr (Or.inl ⟨AvailableUpdate.new Example.installedPlatform Example.client
      Example.manifestNoUpdater, rfl, rfl⟩))

/-! ## Running the update tool -/

/-- C12: for every path and argument string, the task created by `RunUpdateTool(path, args)`
calls the launcher exactly once, with `path` and the argument string `args`, `" --wait-pid "`
and the decimal current process id. If the launch succeeds the task ends the process with
exit code 1, which is not the success code, and yields no result; if the launch fails the
task fails with that error and the process goes on. -/
theorem C12_RunUpdateTool_launches_once_then_exits {V : Type} (P : Platform V)
    (Launch : Path → String → Option Exn) (path : Path) (args : String) :
    runUpdateToolFuture Launch (RunUpdateTool P path args) =
      some ([(path, args ++ " --wait-pid " ++ toString P.GetCurrentProcessID)],
        match Launch path (args ++ " --wait-pid " ++ toString P.GetCurrentProcessID) with
        | none => TaskEnd.exited 1
        | some e => TaskEnd.threw e) := by
  simp only [RunUpdateTool, runUpdateToolFuture, RunUpdateToolTask.run, String.append_assoc]
  cases Launch path (args ++ (" --wait-pid " ++ toString P.GetCurrentProcessID)) <;> rfl

/-- C12 at concrete inputs: a launch that goes through and one that fails. -/
theorem C12_RunUpdateTool_launches_once_then_exits_witness :
    runUpdateToolFuture Example.launchWorks
        (RunUpdateTool Example.platform ["C:", "updater", "tf2_bot_detector_updater.exe"]
          "--update-type Portable") =
      some ([(["C:", "updater", "tf2_bot_detector_updater.exe"],
          "--update-type Portable --wait-pid 4242")], TaskEnd.exited 1) ∧
    runUpdateToolFuture Example.launchFails
        (RunUpdateTool Example.platform ["C:", "updater", "tf2_bot_detector_updater.exe"]
          "--update-type Portable") =
      some ([(["C:", "updater", "tf2_bot_detector_updater.exe"],
          "--update-type Portable --wait-pid 4242")],
        TaskEnd.threw { typeName := "std::runtime_error", what := "CreateProcess failed" }) :=
  ⟨(C12_RunUpdateTool_launches_once_then_exits Example.platform Example.launchWorks
      ["C:", "updater", "tf2_bot_detector_updater.exe"] "--update-type Portable").trans rfl,
    (C12_RunUpdateTool_launches_once_then_exits Example.platform Example.launchFails
      ["C:", "updater", "tf2_bot_detector_updater.exe"] "--update-type Portable").trans rfl⟩

/-! ## The RCON password -/

/-- Every character of a generated password is an element of `PALETTE`, and there are
`length` of them. -/
theorem fillFromPalette_spec (remaining : Nat) :
    ∀ generator : Generator,
      (fillFromPalette 0 (PALETTE.length - 1) remaining generator).length = remaining ∧
      ∀ c ∈ fillFromPalette 0 (PALETTE.length - 1) remaining generator, c ∈ PALETTE := by
  induction remaining with
  | zero => intro generator; simp [fillFromPalette]
  | succ n ih =>
    intro generator
    obtain ⟨hlen, hmem⟩ := ih (fun i => generator (i + 1))
    have hidx : 0 + generator 0 % (PALETTE.length - 1 - 0 + 1) < PALETTE.length := by
      have : PALETTE.length = 63 := by decide
      rw [this]
      omega
    refine ⟨by simp [fillFromPalette, uniform_int_distribution, hlen], ?_⟩
    intro c hc
    simp only [fillFromPalette, uniform_int_distribution, List.mem_cons] at hc
    rcases hc with rfl | hc
    · rw [List.getD_eq_getElem _ _ hidx]
      exact List.getElem_mem _
    · exact hmem c hc

/-- C17, on the code: a generated password always has exactly `length` characters, each an
element of `PALETTE`, but `PALETTE` has 63 elements, the last being the terminating NUL, and
the distribution ranges over all 63 indices: when a draw is 62 the password holds a NUL, which
is not alphanumeric. -/
theorem C17_password_may_hold_NUL :
    (∀ (length : Nat) (generator : Generator),
      (GenerateRandomRCONPassword length generator).length = length ∧
      ∀ c ∈ GenerateRandomRCONPassword length generator, c ∈ PALETTE) ∧
    PALETTE.length - 1 = 62 ∧
    PALETTE.getD 62 (Char.ofNat 1) = Char.ofNat 0 ∧
    (∀ c ∈ PALETTE.take 62, c.isAlphanum = true) ∧
    GenerateRandomRCONPassword 1 (fun _ => 62) = [Char.ofNat 0] ∧
    (Char.ofNat 0).isAlphanum = false := by
  refine ⟨fun length generator => fillFromPalette_spec length generator, by decide, by decide,
    by decide, by decide, by decide⟩

/-! ## Where the downloaded archive is saved -/

/-- No decimal digit character is a dot. -/
theorem digitChar_ne_dot (n : Nat) (h : n < 10) : Nat.digitChar n ≠ '.' := by
  interval_cases n <;> decide

/-- The digits of a number hold no dot. -/
theorem toDigitsCore_no_dot (fuel : Nat) :
    ∀ (n : Nat) (ds : List Char), (∀ c ∈ ds, c ≠ '.') →
      ∀ c ∈ Nat.toDigitsCore 10 fuel n ds, c ≠ '.' := by
  induction fuel with
  | zero => intro n ds hds c hc; exact hds c (by simpa [Nat.toDigitsCore] using hc)
  | succ fuel ih =>
    intro n ds hds c hc
    have hcons : ∀ c ∈ Nat.digitChar (n % 10) :: ds, c ≠ '.' := by
      intro c hc
      rcases List.mem_cons.mp hc with rfl | hc
      · exact digitChar_ne_dot _ (Nat.mod_lt _ (by decide))
      · exact hds c hc
    unfold Nat.toDigitsCore at hc
    by_cases h0 : n / 10 = 0
    · simp only [h0, if_true] at hc
      exact hcons c hc
    · simp only [h0, if_false] at hc
      exact ih _ _ hcons c hc

/-- The decimal text of a number holds no dot. -/
theorem toString_nat_no_dot (n : Nat) : ∀ c ∈ (toString n).toList, c ≠ '.' := by
  intro c hc
  have : (toString n).toList = Nat.toDigits 10 n := rfl
  rw [this] at hc
  exact toDigitsCore_no_dot _ _ _ (by simp) c hc

/-- A file name without a dot has no extension. -/
theorem filenameStem_of_no_dot (filename : String) (h : ∀ c ∈ filename.toList, c ≠ '.') :
    filenameStem filename = filename := by
  have h1 : filename ≠ "." := by
    intro he
    exact h '.' (by rw [he]; decide) rfl
  have h2 : filename ≠ ".." := by
    intro he
    exact h '.' (by rw [he]; decide) rfl
  have hspan : filename.toList.reverse.span (fun c => c != '.') =
      (filename.toList.reverse, []) := by
    rw [List.span_eq_take_drop]
    have hall : ∀ c ∈ filename.toList.reverse, (c != '.') = true := by
      intro c hc
      simpa using h c (List.mem_reverse.mp hc)
    rw [List.takeWhile_eq_self_iff.mpr hall, List.dropWhile_eq_nil_iff.mpr hall]
  unfold filenameStem
  rw [if_neg (by simp [h1, h2]), hspan]

/-- The archive path for a directory whose name has no dot: the name with `.zip` appended,
under the same parent. -/
theorem tempZipPath_append (parent : Path) (name : String)
    (h : ∀ c ∈ name.toList, c ≠ '.') :
    tempZipPath (parent.append name) = parent.append (name ++ ".zip") := by
  have hzip : (".zip" : String).toList.head? = some '.' := by decide
  have hne : (".zip" : String) ≠ "" := by decide
  simp [tempZipPath, Path.replace_extension, Path.append, filenameStem_of_no_dot name h, hzip,
    hne]

/-- A directory name made of a dot-free word and a clock reading has no dot. -/
theorem timestamped_no_dot (word : String) (h : ∀ c ∈ word.toList, c ≠ '.') (now : Nat) :
    ∀ c ∈ (word ++ toString now).toList, c ≠ '.' := by
  intro c hc
  rw [String.toList, String.data_append] at hc
  rcases List.mem_append.mp hc with hc | hc
  · exact h c hc
  · exact toString_nat_no_dot now c hc

/-- A path with one more component lies inside its parent and not inside a sibling. -/
theorem isInside_append (parent : Path) (name other : String) :
    (parent.append name).isInside parent = true ∧
    (parent.append name).isInside (parent.append other) = false := by
  constructor
  · simp [Path.isInside, Path.append]
  · simp [Path.isInside, Path.append]

/-- C16 as stated fails: for the download started at clock reading 1 the extraction directory
is `tool_1` under the download root, and the archive is saved as `tool_1.zip` under the same
root, beside that directory and not inside it. -/
theorem C16_archive_saved_beside_extraction_directory :
    DownloadBuild Example.platform 1 Example.client (Example.nativeVariant "portable64.zip")
        (Example.nativeVariant "updater64.zip") =
      .pending
        { clientPtr := Example.client
          tool := Example.nativeVariant "portable64.zip"
          updater := Example.nativeVariant "updater64.zip"
          downloadDir := ["C:", "Temp", "TF2 Bot Detector", "Portable Updates", "tool_1"] } ∧
    tempZipPath ["C:", "Temp", "TF2 Bot Detector", "Portable Updates", "tool_1"] =
      ["C:", "Temp", "TF2 Bot Detector", "Portable Updates", "tool_1.zip"] ∧
    (tempZipPath ["C:", "Temp", "TF2 Bot Detector", "Portable Updates", "tool_1"]).isInside
      ["C:", "Temp", "TF2 Bot Detector", "Portable Updates", "tool_1"] = false := by
  refine ⟨rfl, by decide, by decide⟩

/-- C16, amended: for every invocation of `DownloadBuild` and of `DownloadUpdateTool`, the
temporary archive file is saved beside that invocation's timestamp-suffixed extraction
directory, not inside it: its path is the directory's path with the extension `.zip`, that is
`DOWNLOAD_DIR_ROOT/tool_<timestamp>.zip` or `DOWNLOAD_DIR_ROOT/updater_<timestamp>.zip`, which
lies inside `DOWNLOAD_DIR_ROOT`. -/
theorem C16_archive_path_is_directory_with_zip_extension {V : Type} (P : Platform V) (now : Nat)
    (client : HTTPClient) (tool updater : BuildVariant) :
    DownloadBuild P now client tool updater =
      .pending (DownloadBuildTask.mk client tool updater
        ((DOWNLOAD_DIR_ROOT P).append ("tool_" ++ toString now))) ∧
    tempZipPath ((DOWNLOAD_DIR_ROOT P).append ("tool_" ++ toString now)) =
      (DOWNLOAD_DIR_ROOT P).append ("tool_" ++ toString now ++ ".zip") ∧
    tempZipPath (updateToolDownloadDir P now) =
      (DOWNLOAD_DIR_ROOT P).append ("updater_" ++ toString now ++ ".zip") ∧
    (tempZipPath ((DOWNLOAD_DIR_ROOT P).append ("tool_" ++ toString now))).isInside
      ((DOWNLOAD_DIR_ROOT P).append ("tool_" ++ toString now)) = false ∧
    (tempZipPath (updateToolDownloadDir P now)).isInside (updateToolDownloadDir P now) = false ∧
    (tempZipPath ((DOWNLOAD_DIR_ROOT P).append ("tool_" ++ toString now))).isInside
      (DOWNLOAD_DIR_ROOT P) = true ∧
    (tempZipPath (updateToolDownloadDir P now)).isInside (DOWNLOAD_DIR_ROOT P) = true := by
  have htool := tempZipPath_append (DOWNLOAD_DIR_ROOT P) ("tool_" ++ toString now)
    (timestamped_no_dot "tool_" (by decide) now)
  have hupdater := tempZipPath_append (DOWNLOAD_DIR_ROOT P) ("updater_" ++ toString now)
    (timestamped_no_dot "updater_" (by decide) now)
  refine ⟨rfl, htool, hupdater, ?_, ?_, ?_, ?_⟩
  · rw [htool]; exact (isInside_append _ _ _).2
  · rw [updateToolDownloadDir, hupdater]; exact (isInside_append _ _ _).2
  · rw [htool]; exact (isInside_append _ _ "").1
  · rw [updateToolDownloadDir, hupdater]; exact (isInside_append _ _ "").1

/-! ## Cleaning up the downloaded archive -/

/-- After a removal that goes through no file exists at the path. -/
theorem isFile_remove (fs : FileSystem) (p : Path) : (fs.remove p).isFile p = false := by
  simp [FileSystem.isFile, FileSystem.remove]

/-- What `DownloadAndExtractZip` does after a download that succeeded, by the outcome of the
removal in the destructor of `scopeExit`. -/
theorem DownloadAndExtractZip_after_download {V : Type} (P : Platform V) (O : Outside)
    (client : HTTPClient) (url : String) (extractDir : Path) (fs : FileSystem) (data : String)
    (hdownload : O.GetString client url = .ok data) :
    (O.remove (tempZipPath extractDir) = none →
      (DownloadAndExtractZip P O client url extractDir fs).2.isFile (tempZipPath extractDir) =
        false ∧
      (∀ u : Unit, (saveAndExtract P O data extractDir fs).1 = .ok u →
        (DownloadAndExtractZip P O client url extractDir fs).1 = CallEnd.returned) ∧
      (∀ failure : Failure, (saveAndExtract P O data extractDir fs).1 = .error failure →
        (DownloadAndExtractZip P O client url extractDir fs).1 = CallEnd.threw failure)) ∧
    (∀ e : Exn, O.remove (tempZipPath extractDir) = some e →
      (DownloadAndExtractZip P O client url extractDir fs).2 =
        (saveAndExtract P O data extractDir fs).2 ∧
      (∀ failure : Failure, (saveAndExtract P O data extractDir fs).1 = .error failure →
        (DownloadAndExtractZip P O client url extractDir fs).1 = CallEnd.terminated) ∧
      (∀ u : Unit, (saveAndExtract P O data extractDir fs).1 = .ok u →
        (DownloadAndExtractZip P O client url extractDir fs).1 =
          if O.scopeExitNoexcept then CallEnd.terminated else CallEnd.threw (.plain e))) := by
  rcases hbody : saveAndExtract P O data extractDir fs with ⟨result, fs2⟩
  constructor
  · intro hremove
    cases result with
    | ok u =>
      have hrun : DownloadAndExtractZip P O client url extractDir fs =
          (CallEnd.returned, fs2.remove (tempZipPath extractDir)) := by
        simp [DownloadAndExtractZip, hdownload, hbody, hremove]
      rw [hrun]
      exact ⟨isFile_remove _ _, fun _ _ => rfl, fun _ h => by simp at h⟩
    | error failure =>
      have hrun : DownloadAndExtractZip P O client url extractDir fs =
          (CallEnd.threw failure, fs2.remove (tempZipPath extractDir)) := by
        simp [DownloadAndExtractZip, hdownload, hbody, hremove]
      rw [hrun]
      refine ⟨isFile_remove _ _, fun _ h => by simp at h, fun f h => ?_⟩
      simp only [Except.error.injEq] at h
      rw [h]
  · intro e hremove
    cases result with
    | ok u =>
      by_cases hn : O.scopeExitNoexcept = true
      · simp [DownloadAndExtractZip, hdownload, hbody, hremove, hn]
      · simp [DownloadAndExtractZip, hdownload, hbody, hremove, hn]
    | error failure =>
      simp [DownloadAndExtractZip, hdownload, hbody, hremove]

/-- C13, on the code. When the removal in the destructor of `scopeExit` goes through, the
claim holds: after a download that succeeded no file exists at the temporary archive path when
the function finishes, whether saving, opening or extracting succeeded or failed, and a
failure is passed on to the caller. But the removal is the throwing
`std::filesystem::remove`: when it throws, the archive file stays, and after a failure of
saving or extracting the process is ended by `std::terminate` and nothing is reported to the
caller; after a success the process is ended as well, or the function throws the exception
of the removal where the destructor may throw. So it is when another process holds the
archive open, whether extraction has failed or succeeded. -/
theorem C13_remove_failure_terminates :
    (∀ (V : Type) (P : Platform V) (O : Outside) (client : HTTPClient) (url : String)
        (extractDir : Path) (fs : FileSystem) (data : String),
      O.GetString client url = .ok data →
      (O.remove (tempZipPath extractDir) = none →
        (DownloadAndExtractZip P O client url extractDir fs).2.isFile (tempZipPath extractDir) =
          false ∧
        (∀ u : Unit, (saveAndExtract P O data extractDir fs).1 = .ok u →
          (DownloadAndExtractZip P O client url extractDir fs).1 = CallEnd.returned) ∧
        (∀ failure : Failure, (saveAndExtract P O data extractDir fs).1 = .error failure →
          (DownloadAndExtractZip P O client url extractDir fs).1 = CallEnd.threw failure)) ∧
      (∀ e : Exn, O.remove (tempZipPath extractDir) = some e →
        (DownloadAndExtractZip P O client url extractDir fs).2 =
          (saveAndExtract P O data extractDir fs).2 ∧
        (∀ failure : Failure, (saveAndExtract P O data extractDir fs).1 = .error failure →
          (DownloadAndExtractZip P O client url extractDir fs).1 = CallEnd.terminated) ∧
        (∀ u : Unit, (saveAndExtract P O data extractDir fs).1 = .ok u →
          (DownloadAndExtractZip P O client url extractDir fs).1 =
            if O.scopeExitNoexcept then CallEnd.terminated else CallEnd.threw (.plain e)))) ∧
    ((saveAndExtract Example.platform (Example.outside true) "archive of portable64.zip"
        Example.toolDir Example.emptyDisk).1.toBool = false ∧
      (saveAndExtract Example.platform (Example.outside true) "archive of portable64.zip"
        Example.toolDir Example.emptyDisk).2.isFile (tempZipPath Example.toolDir) = true ∧
      (DownloadAndExtractZip Example.platform (Example.outside true) Example.client
        "portable64.zip" Example.toolDir Example.emptyDisk).2.isFile
          (tempZipPath Example.toolDir) = false) ∧
    ((saveAndExtract Example.platform (Example.outsideLockedArchive true true)
        "archive of portable64.zip" Example.toolDir Example.emptyDisk).1.toBool = false ∧
      (DownloadAndExtractZip Example.platform (Example.outsideLockedArchive true true)
        Example.client "portable64.zip" Example.toolDir Example.emptyDisk).1 =
          CallEnd.terminated ∧
      (DownloadAndExtractZip Example.platform (Example.outsideLockedArchive true false)
        Example.client "portable64.zip" Example.toolDir Example.emptyDisk).1 =
          CallEnd.terminated ∧
      (DownloadAndExtractZip Example.platform (Example.outsideLockedArchive true true)
        Example.client "portable64.zip" Example.toolDir Example.emptyDisk).2.isFile
          (tempZipPath Example.toolDir) = true) ∧
    ((saveAndExtract Example.platform (Example.outsideLockedArchive false true)
        "archive of portable64.zip" Example.toolDir Example.emptyDisk).1.toBool = true ∧
      (DownloadAndExtractZip Example.platform (Example.outsideLockedArchive false true)
        Example.client "portable64.zip" Example.toolDir Example.emptyDisk).1 =
          CallEnd.terminated ∧
      (DownloadAndExtractZip Example.platform (Example.outsideLockedArchive false false)
        Example.client "portable64.zip" Example.toolDir Example.emptyDisk).1 =
          CallEnd.threw (.plain { typeName := "std::filesystem::filesystem_error"
                                  what := "remove: The process cannot access the file" }) ∧
      (DownloadAndExtractZip Example.platform (Example.outsideLockedArchive false true)
        Example.client "portable64.zip" Example.toolDir Example.emptyDisk).2.isFile
          (tempZipPath Example.toolDir) = true ∧
      (DownloadAndExtractZip Example.platform (Example.outsideLockedArchive false false)
        Example.client "portable64.zip" Example.toolDir Example.emptyDisk).2.isFile
          (tempZipPath Example.toolDir) = true) := by
  refine ⟨?_, ⟨by decide, by decide, by decide⟩, ⟨by decide, rfl, rfl, by decide⟩,
    ⟨by decide, rfl, rfl, by decide, by decide⟩⟩
  intro V P O client url extractDir fs data hdownload
  exact DownloadAndExtractZip_after_download P O client url extractDir fs data hdownload

/-! ## Decoding the manifest: properties -/

/-- The calls `at` and `find` agree on a key that is present. -/
theorem atKey_of_find (j : Json) (key : String) (value : Json) (h : j.find key = some value) :
    j.atKey key = .ok value := by
  cases j with
  | object members =>
    simp only [Json.find] at h
    simp [Json.atKey, h]
  | _ => simp [Json.find] at h

/-- The call `at` throws for a key that `find` does not find. -/
theorem atKey_of_find_none (j : Json) (key : String) (h : j.find key = none) :
    ∃ e, j.atKey key = .error e := by
  cases j with
  | object members =>
    simp only [Json.find] at h
    simp [Json.atKey, h]
  | _ => exact ⟨_, rfl⟩

/-- An entry that lacks `os`, `arch` or `download_url` does not decode. -/
theorem BuildVariant_from_json_missing {V : Type} (C : Conversions V) (entry : Json)
    (key : String) (hkey : key ∈ ["os", "arch", "download_url"])
    (hmissing : entry.find key = none) :
    ∃ e, BuildVariant.from_json C entry = .error e := by
  obtain ⟨e, he⟩ := atKey_of_find_none entry key hmissing
  simp only [List.mem_cons, List.mem_singleton, List.not_mem_nil, or_false] at hkey
  unfold BuildVariant.from_json
  rcases hkey with rfl | rfl | rfl <;>
    (repeat' split) <;> first | exact ⟨_, rfl⟩ | simp_all

/-- An array with an entry that does not decode does not decode. -/
theorem variantsFromJson_error {V : Type} (C : Conversions V) (entry : Json)
    (hentry : ∃ e, BuildVariant.from_json C entry = .error e) :
    ∀ elements : List Json, entry ∈ elements → ∃ e, variantsFromJson C elements = .error e := by
  intro elements
  induction elements with
  | nil => intro h; simp at h
  | cons first rest ih =>
    intro hmem
    unfold variantsFromJson
    rcases List.mem_cons.mp hmem with rfl | hmem
    · obtain ⟨e, he⟩ := hentry
      rw [he]
      exact ⟨_, rfl⟩
    · obtain ⟨e, he⟩ := ih hmem
      rw [he]
      split <;> exact ⟨_, rfl⟩

/-- C15: decoding a manifest object into `BuildInfo` succeeds when the object has a `version`
and a `build_type` that convert and arrays `updater` and `portable` whose entries decode;
`github_url` and `msix_bundle_url` become the empty string when the key is absent and the given
string when it is present. An entry decodes when it has an `os` and an `arch` that convert and
a string `download_url`. Decoding fails with an error whenever `version`, `build_type`,
`updater` or `portable` is missing, and whenever an entry of `updater` or `portable` lacks `os`,
`arch` or `download_url`. -/
theorem C15_from_json {V : Type} (C : Conversions V) :
    (∀ (members : List (String × Json)) (version build_type : Json) (updater portable : List Json)
        (m_Version : V) (m_ReleaseChannel : ReleaseChannel) (github msix : Option String)
        (m_Updater m_Portable : List BuildVariant),
      members.lookup "version" = some version → C.version version = .ok m_Version →
      members.lookup "build_type" = some build_type →
      C.releaseChannel build_type = .ok m_ReleaseChannel →
      members.lookup "github_url" = github.map Json.string →
      members.lookup "msix_bundle_url" = msix.map Json.string →
      members.lookup "updater" = some (.array updater) →
      variantsFromJson C updater = .ok m_Updater →
      members.lookup "portable" = some (.array portable) →
      variantsFromJson C portable = .ok m_Portable →
      BuildInfo.from_json C (.object members) =
        .ok { m_Version := m_Version
              m_ReleaseChannel := m_ReleaseChannel
              m_GitHubURL := github.getD ""
              m_MSIXBundleURL := msix.getD ""
              m_Updater := m_Updater
              m_Portable := m_Portable }) ∧
    (∀ (fields : List (String × Json)) (os arch : Json) (m_OS : OS) (m_Arch : Arch)
        (m_DownloadURL : String),
      fields.lookup "os" = some os → C.os os = .ok m_OS →
      fields.lookup "arch" = some arch → C.arch arch = .ok m_Arch →
      fields.lookup "download_url" = some (.string m_DownloadURL) →
      BuildVariant.from_json C (.object fields) =
        .ok { m_OS := m_OS, m_Arch := m_Arch, m_DownloadURL := m_DownloadURL }) ∧
    (∀ (j : Json) (key : String), key ∈ ["version", "build_type", "updater", "portable"] →
      j.find key = none → ∃ e, BuildInfo.from_json C j = .error e) ∧
    (∀ (j entry : Json) (list key : String) (entries : List Json),
      list ∈ ["updater", "portable"] → j.find list = some (.array entries) →
      entry ∈ entries → key ∈ ["os", "arch", "download_url"] → entry.find key = none →
      ∃ e, BuildInfo.from_json C j = .error e) := by
  refine ⟨?_, ?_, ?_, ?_⟩
  · intro members version build_type updater portable m_Version m_ReleaseChannel github msix
      m_Updater m_Portable hv hcv hb hcb hg hm hu hcu hp hcp
    cases github <;> cases msix <;>
      simp only [Option.map_none', Option.map_some', Option.getD_none, Option.getD_some]
        at hg hm ⊢ <;>
      simp [BuildInfo.from_json, Json.atKey, try_get_to_defaulted, Json.find, Json.toStdString,
        Json.toVariants, hv, hcv, hb, hcb, hg, hm, hu, hcu, hp, hcp]
  · intro fields os arch m_OS m_Arch m_DownloadURL ho hco ha hca hd
    simp [BuildVariant.from_json, Json.atKey, Json.toStdString, ho, hco, ha, hca, hd]
  · intro j key hkey hmissing
    obtain ⟨e, he⟩ := atKey_of_find_none j key hmissing
    simp only [List.mem_cons, List.mem_singleton, List.not_mem_nil, or_false] at hkey
    unfold BuildInfo.from_json
    rcases hkey with rfl | rfl | rfl | rfl <;>
      (repeat' split) <;> first | exact ⟨_, rfl⟩ | simp_all
  · intro j entry list key entries hlist hfind hmem hkey hmissing
    have hat := atKey_of_find j list _ hfind
    obtain ⟨e, he⟩ := variantsFromJson_error C entry
      (BuildVariant_from_json_missing C entry key hkey hmissing) entries hmem
    simp only [List.mem_cons, List.mem_singleton, List.not_mem_nil, or_false] at hlist
    unfold BuildInfo.from_json
    rcases hlist with rfl | rfl <;>
      (repeat' split) <;> first | exact ⟨_, rfl⟩ | simp_all [Json.toVariants]

/-- C15 at a concrete input: a manifest with `msix_bundle_url` and without `github_url`. -/
theorem C15_from_json_witness :
    BuildInfo.from_json Example.conversions Example.manifestJson =
      .ok { m_Version := 7
            m_ReleaseChannel := ReleaseChannel.Public
            m_GitHubURL := ""
            m_MSIXBundleURL := "bundle.msix"
            m_Updater := [Example.otherArchVariant "updater32.zip",
              Example.nativeVariant "updater64.zip"]
            m_Portable := [Example.otherArchVariant "portable32.zip",
              Example.nativeVariant "portable64.zip"] } :=
  (C15_from_json Example.conversions).1 _ (.string "7") (.string "Public")
    [Example.variantJson "x86" "updater32.zip", Example.variantJson "x64" "updater64.zip"]
    [Example.variantJson "x86" "portable32.zip", Example.variantJson "x64" "portable64.zip"]
    7 ReleaseChannel.Public none (some "bundle.msix") _ _
    rfl rfl rfl rfl rfl rfl rfl rfl rfl rfl

/-! ## The portable self-update, tick by tick -/

/-- What `pipelineTaskSucceeds` stores for the build download is what its lambda returns. -/
theorem DownloadBuildTask_run_returned {V : Type} (P : Platform V) (O : Outside)
    (t : DownloadBuildTask) (fs fs2 : FileSystem) (value : DownloadedBuild)
    (h : t.run P O fs = (.returned value, fs2)) :
    value = { m_UpdaterVariant := t.updater, m_ExtractedLocation := t.downloadDir } := by
  unfold DownloadBuildTask.run at h
  split at h
  · simp at h
  · simp at h
  · simp only [Prod.mk.injEq, TaskEnd.returned.injEq] at h
    exact h.1.symm

/-- What `pipelineTaskSucceeds` stores for the update tool download is what its lambda
returns. -/
theorem DownloadUpdateToolTask_run_returned {V : Type} (P : Platform V) (O : Outside)
    (now : Nat) (t : DownloadUpdateToolTask) (fs fs2 : FileSystem)
    (value : DownloadedUpdateTool) (h : t.run P O now fs = (.returned value, fs2)) :
    value =
      { m_Path := (updateToolDownloadDir P now).append "tf2_bot_detector_updater.exe"
        m_Arguments := t.args } := by
  unfold DownloadUpdateToolTask.run at h
  dsimp only at h
  split at h
  · simp at h
  · simp at h
  · simp only [Prod.mk.injEq, TaskEnd.returned.injEq] at h
    exact h.1.symm

end tf2_bot_detector
